import Mathlib

/-!
Shallow embedding of the session reconciliation and aggregation engine of the
vatsim-stats collector (collector.go: `FetchAndStore`, `storeData`,
`storeConnectionStats`), together with the record types it consumes
(types.VatsimData, types.Pilot, types.Controller) and the durable tables it
writes (connections, pilot_stats, pilot_total_stats, atc_stats, atis_stats).

Modeling conventions:
- Timestamps are natural numbers (seconds since an arbitrary epoch).
- Floating-point payload fields of source records (latitude, longitude,
  qnh_i_hg) are carried as integers: the collector stores them opaquely and
  never computes with them.
- The relational store is a record of lists; one reconciliation transaction is
  a `Tx` value that accumulates tentative table states, the write log, and the
  in-memory active-connection map, which the Go code mutates in place while
  the transaction is open.
- A persistence failure is injected by `failAt`: transaction write number `n`
  fails iff `failAt = some n`; the transaction is then abandoned (rollback),
  carrying the in-memory map as already mutated, exactly as the Go code's
  `defer tx.Rollback()` leaves `c.activeConnections`.
-/

namespace VatsimStats

/-- Connection types from api/models.go (TypePilot = 1, TypeATC = 2, TypeATIS = 3). -/
inductive ConnectionType where
  | pilot
  | atc
  | atis
deriving DecidableEq, Repr

/-- Flight plan record (types.FlightPlan). -/
structure FlightPlan where
  flightRules : String
  aircraft : String
  aircraftFaa : String
  aircraftShort : String
  departure : String
  arrival : String
  alternate : String
  cruiseTas : String
  altitude : String
  depTime : String
  enrouteTime : String
  fuelTime : String
  remarks : String
  route : String
  revisionId : Int
  assignedTransponder : String
deriving DecidableEq, Repr

/-- Pilot record of a snapshot (types.Pilot). -/
structure Pilot where
  cid : Int
  name : String
  callsign : String
  server : String
  pilotRating : Int
  militaryRating : Int
  latitude : Int
  longitude : Int
  altitude : Int
  groundspeed : Int
  transponder : String
  heading : Int
  qnhIHg : Int
  qnhMb : Int
  flightPlan : Option FlightPlan
  logonTime : Nat
  lastUpdated : Nat
deriving DecidableEq, Repr

/-- Controller record of a snapshot (types.Controller). -/
structure Controller where
  cid : Int
  name : String
  callsign : String
  frequency : String
  facility : Int
  rating : Int
  server : String
  visualRange : Int
  textAtis : List String
  lastUpdated : Nat
  logonTime : Nat
deriving DecidableEq, Repr

/-- Facility reference row (types.Facility). -/
structure Facility where
  id : Int
  short : String
  long : String
deriving DecidableEq, Repr

/-- Rating reference row (types.Rating). -/
structure RatingInfo where
  id : Int
  short : String
  long : String
deriving DecidableEq, Repr

/-- General section of a snapshot (types.General). -/
structure General where
  version : Int
  reload : Int
  update : String
  updateTimestamp : Nat
  connectedClients : Int
  uniqueUsers : Int
deriving DecidableEq, Repr

/-- One full snapshot document (types.VatsimData). -/
structure VatsimData where
  general : General
  pilots : List Pilot
  controllers : List Controller
  facilities : List Facility
  ratings : List RatingInfo
deriving DecidableEq, Repr

/-- In-memory open session (collector.go activeConnection). The ten interaction
counters stay at their Go zero values: the snapshot feed carries no deltas. -/
structure ActiveConn where
  cid : String
  callsign : String
  connectionType : ConnectionType
  rating : Int
  server : String
  startTime : Nat
  lastSeen : Nat
  aircraftTracked : Int
  aircraftSeen : Int
  flightsAmended : Int
  handoffsInitiated : Int
  handoffsReceived : Int
  handoffsRefused : Int
  squawksAssigned : Int
  cruiseAltsModified : Int
  tempAltsModified : Int
  scratchpadMods : Int
  hasFlightPlan : Bool
deriving DecidableEq, Repr

/-- One row of the durable `connections` table. -/
structure ConnRow where
  id : Nat
  vatsimId : String
  type : ConnectionType
  rating : Int
  callsign : String
  startTime : Nat
  endTime : Nat
  server : String
deriving DecidableEq, Repr

/-- One row of `pilot_total_stats`, keyed by vatsim_id. -/
structure PilotTotals where
  totalHours : Int
  totalFlights : Int
  studentHours : Int
  pplHours : Int
  instrumentHours : Int
  cplHours : Int
  atplHours : Int
  lastUpdated : Nat
deriving DecidableEq, Repr

/-- One row of `pilot_stats` (per finalized pilot connection). -/
structure PilotStatsRow where
  connId : Nat
  flightTime : Int
  pilotRating : Int
  hasFlightPlan : Bool
deriving DecidableEq, Repr

/-- One row of `atc_stats` (per finalized ATC connection). -/
structure AtcStatsRow where
  connId : Nat
  aircraftTracked : Int
  aircraftSeen : Int
  flightsAmended : Int
  handoffsInitiated : Int
  handoffsReceived : Int
  handoffsRefused : Int
  squawksAssigned : Int
  cruiseAltsModified : Int
  tempAltsModified : Int
  scratchpadMods : Int
deriving DecidableEq, Repr

/-- Marker rows for the auxiliary aggregate-statistics inserts issued outside
the reconciliation transaction (storeNetworkStats, storeAirportStats). Their
payloads are summaries no claim references, so they are carried abstractly. -/
inductive AuxWrite where
  | networkStats
  | airportStats
deriving DecidableEq, Repr

/-- The durable store: every table the collector writes. -/
structure DBState where
  facilities : List Facility
  ratingDefs : List RatingInfo
  snapshots : List (Nat × General)
  nextSnapshotId : Nat
  pilots : List (Nat × Nat × Pilot)
  nextPilotId : Nat
  flightPlans : List (Nat × FlightPlan)
  controllers : List (Nat × Controller)
  connections : List ConnRow
  nextConnId : Nat
  pilotStats : List PilotStatsRow
  pilotTotals : List (String × PilotTotals)
  atcStats : List AtcStatsRow
  atisStats : List (Nat × Int)
  aux : List AuxWrite
deriving DecidableEq, Repr

/-- The write log of one reconciliation transaction (each constructor is one
SQL statement the Go code executes inside the transaction). -/
inductive Write where
  | facilityUpsert (f : Facility)
  | ratingUpsert (r : RatingInfo)
  | snapshotInsert (id : Nat) (g : General)
  | pilotInsert (id : Nat) (snapshotId : Nat) (p : Pilot)
  | flightPlanInsert (pilotId : Nat) (fp : FlightPlan)
  | connInsert (row : ConnRow)
  | connUpdate (id : Nat) (endTime : Nat) (rating : Int)
  | controllerInsert (snapshotId : Nat) (ctl : Controller)
  | pilotStatsInsert (row : PilotStatsRow)
  | pilotTotalsUpsert (cid : String) (flightTime : Int) (rating : Int) (lastSeen : Nat)
  | atcStatsInsert (row : AtcStatsRow)
  | atisStatsInsert (connId : Nat) (updates : Int)
deriving DecidableEq, Repr

/-- The in-memory active-connection map (Go map keyed by "cid-callsign"). -/
abbrev Mem := List (String × ActiveConn)

/-- Association-list lookup (Go map read). -/
def lookupA {α : Type} : List (String × α) → String → Option α
  | [], _ => none
  | (k', v) :: rest, k => if k' = k then some v else lookupA rest k

/-- Association-list write (Go map assignment: overwrite or append). -/
def insertA {α : Type} : List (String × α) → String → α → List (String × α)
  | [], k, v => [(k, v)]
  | (k', v') :: rest, k, v =>
    if k' = k then (k, v) :: rest else (k', v') :: insertA rest k v

/-- Association-list delete (Go map delete). -/
def removeA {α : Type} : List (String × α) → String → List (String × α)
  | [], _ => []
  | (k', v') :: rest, k =>
    if k' = k then removeA rest k else (k', v') :: removeA rest k

/-- Connection key: fmt.Sprintf("%d-%s", cid, callsign). -/
def mkKey (cid : Int) (callsign : String) : String :=
  toString cid ++ "-" ++ callsign

/-- INSERT ... ON CONFLICT (id) DO UPDATE for the reference tables. -/
def upsertById {α : Type} (getId : α → Int) : List α → α → List α
  | [], x => [x]
  | y :: rest, x => if getId y = getId x then x :: rest else y :: upsertById getId rest x

/-- SELECT id FROM connections WHERE vatsim_id = $1 AND callsign = $2 AND
type = $3 AND end_time > $4 ORDER BY start_time DESC LIMIT 1, with
$4 = now − 5 minutes. When several rows share the maximal start time the SQL
order is unspecified; the model keeps the earliest-inserted one. -/
def findOpenConn (conns : List ConnRow) (vid callsign : String)
    (ty : ConnectionType) (cutoff : Nat) : Option ConnRow :=
  (conns.filter (fun r =>
      decide (r.vatsimId = vid ∧ r.callsign = callsign ∧ r.type = ty ∧ cutoff < r.endTime))).foldl
    (fun acc r =>
      match acc with
      | none => some r
      | some b => if b.startTime < r.startTime then some r else some b)
    none

/-- UPDATE connections SET end_time = $1, rating = $2 WHERE id = $3. -/
def updateConnRow (conns : List ConnRow) (i : Nat) (e : Nat) (rating : Int) : List ConnRow :=
  conns.map (fun r => if r.id = i then { r with endTime := e, rating := rating } else r)

/-- The pilot_total_stats upsert: INSERT the CASE-WHEN row, ON CONFLICT
(vatsim_id) DO UPDATE adding the same deltas to the stored row. -/
def upsertPilotTotals (l : List (String × PilotTotals)) (cid : String)
    (ft : Int) (rating : Int) (lastSeen : Nat) : List (String × PilotTotals) :=
  match lookupA l cid with
  | none => insertA l cid
      { totalHours := ft
        totalFlights := 1
        studentHours := if rating = 1 then ft else 0
        pplHours := if rating = 2 then ft else 0
        instrumentHours := if rating = 3 then ft else 0
        cplHours := if rating = 4 then ft else 0
        atplHours := if rating = 5 then ft else 0
        lastUpdated := lastSeen }
  | some t => insertA l cid
      { totalHours := t.totalHours + ft
        totalFlights := t.totalFlights + 1
        studentHours := t.studentHours + (if rating = 1 then ft else 0)
        pplHours := t.pplHours + (if rating = 2 then ft else 0)
        instrumentHours := t.instrumentHours + (if rating = 3 then ft else 0)
        cplHours := t.cplHours + (if rating = 4 then ft else 0)
        atplHours := t.atplHours + (if rating = 5 then ft else 0)
        lastUpdated := lastSeen }

/-- One open reconciliation transaction: tentative durable state, the
in-memory map (mutated in place by the Go code while the transaction is
open), the ordered write log, and the count of writes issued so far. -/
structure Tx where
  db : DBState
  mem : Mem
  writes : List Write
  wc : Nat
deriving DecidableEq, Repr

/-- One transactional SQL statement. Write number `wc` fails iff
`failAt = some wc`; on failure the transaction is abandoned and the
already-mutated in-memory map is carried out as the error value. -/
def txWrite (failAt : Option Nat) (w : Write) (apply : DBState → DBState)
    (t : Tx) : Except Mem Tx :=
  if failAt = some t.wc then Except.error t.mem
  else Except.ok { db := apply t.db, mem := t.mem, writes := t.writes ++ [w], wc := t.wc + 1 }

/-- Facilities loop of storeData: upsert each facility row. -/
def processFacilities (failAt : Option Nat) : List Facility → Tx → Except Mem Tx
  | [], t => Except.ok t
  | f :: fs, t =>
    match txWrite failAt (Write.facilityUpsert f)
        (fun db => { db with facilities := upsertById Facility.id db.facilities f }) t with
    | Except.error m => Except.error m
    | Except.ok t1 => processFacilities failAt fs t1

/-- Ratings loop of storeData: upsert each rating row. -/
def processRatingDefs (failAt : Option Nat) : List RatingInfo → Tx → Except Mem Tx
  | [], t => Except.ok t
  | r :: rs, t =>
    match txWrite failAt (Write.ratingUpsert r)
        (fun db => { db with ratingDefs := upsertById RatingInfo.id db.ratingDefs r }) t with
    | Except.error m => Except.error m
    | Except.ok t1 => processRatingDefs failAt rs t1

/-- INSERT INTO snapshots ... RETURNING id. -/
def insertSnapshot (failAt : Option Nat) (g : General) (t : Tx) : Except Mem (Nat × Tx) :=
  match txWrite failAt (Write.snapshotInsert t.db.nextSnapshotId g)
      (fun db => { db with
        snapshots := db.snapshots ++ [(db.nextSnapshotId, g)]
        nextSnapshotId := db.nextSnapshotId + 1 }) t with
  | Except.error m => Except.error m
  | Except.ok t1 => Except.ok (t.db.nextSnapshotId, t1)

/-- The activeConnection literal built for a pilot in both the new-connection
and the restore branches of storeData. -/
def newPilotConn (p : Pilot) : ActiveConn :=
  { cid := toString p.cid
    callsign := p.callsign
    connectionType := ConnectionType.pilot
    rating := p.pilotRating
    server := p.server
    startTime := p.logonTime
    lastSeen := p.lastUpdated
    aircraftTracked := 0, aircraftSeen := 0, flightsAmended := 0
    handoffsInitiated := 0, handoffsReceived := 0, handoffsRefused := 0
    squawksAssigned := 0, cruiseAltsModified := 0, tempAltsModified := 0
    scratchpadMods := 0
    hasFlightPlan := p.flightPlan.isSome }

/-- Body of the pilots loop of storeData for one pilot record: insert the
pilots row (and flight plan, when present), look up an open durable
connection within the 5-minute grace window, then either insert a new
connection row or advance the found row's end boundary, mirroring the update
into the in-memory map. -/
def processPilot (failAt : Option Nat) (snapshotId : Nat) (now : Nat)
    (p : Pilot) (t : Tx) : Except Mem Tx :=
  match txWrite failAt (Write.pilotInsert t.db.nextPilotId snapshotId p)
      (fun db => { db with
        pilots := db.pilots ++ [(db.nextPilotId, snapshotId, p)]
        nextPilotId := db.nextPilotId + 1 }) t with
  | Except.error m => Except.error m
  | Except.ok t1 =>
    match (match p.flightPlan with
      | none => Except.ok t1
      | some fp => txWrite failAt (Write.flightPlanInsert t.db.nextPilotId fp)
          (fun db => { db with flightPlans := db.flightPlans ++ [(t.db.nextPilotId, fp)] }) t1 : Except Mem Tx) with
    | Except.error m => Except.error m
    | Except.ok t2 =>
      match findOpenConn t2.db.connections (toString p.cid) p.callsign
          ConnectionType.pilot (now - 300) with
      | none =>
        match txWrite failAt
            (Write.connInsert
              { id := t2.db.nextConnId, vatsimId := toString p.cid
                type := ConnectionType.pilot, rating := p.pilotRating
                callsign := p.callsign, startTime := p.logonTime
                endTime := p.lastUpdated, server := p.server })
            (fun db => { db with
              connections := db.connections ++
                [{ id := db.nextConnId, vatsimId := toString p.cid
                   type := ConnectionType.pilot, rating := p.pilotRating
                   callsign := p.callsign, startTime := p.logonTime
                   endTime := p.lastUpdated, server := p.server }]
              nextConnId := db.nextConnId + 1 }) t2 with
        | Except.error m => Except.error m
        | Except.ok t3 =>
          Except.ok { t3 with mem := insertA t3.mem (mkKey p.cid p.callsign) (newPilotConn p) }
      | some r =>
        match txWrite failAt (Write.connUpdate r.id p.lastUpdated p.pilotRating)
            (fun db => { db with connections := updateConnRow db.connections r.id p.lastUpdated p.pilotRating }) t2 with
        | Except.error m => Except.error m
        | Except.ok t3 =>
          match lookupA t3.mem (mkKey p.cid p.callsign) with
          | some active =>
            let upd := { active with
              lastSeen := p.lastUpdated
              rating := p.pilotRating
              hasFlightPlan := p.flightPlan.isSome }
            Except.ok { t3 with mem := insertA t3.mem (mkKey p.cid p.callsign) upd }
          | none =>
            Except.ok { t3 with mem := insertA t3.mem (mkKey p.cid p.callsign) (newPilotConn p) }

/-- Pilots loop of storeData. -/
def processPilots (failAt : Option Nat) (snapshotId : Nat) (now : Nat) :
    List Pilot → Tx → Except Mem Tx
  | [], t => Except.ok t
  | p :: ps, t =>
    match processPilot failAt snapshotId now p t with
    | Except.error m => Except.error m
    | Except.ok t1 => processPilots failAt snapshotId now ps t1

/-- Classification of a controller-shaped record in storeData:
`if len(controller.TextAtis) > 0 { connType = TypeATIS } else { connType = TypeATC }`. -/
def resolveConnType (textAtis : List String) : ConnectionType :=
  if textAtis.length > 0 then ConnectionType.atis else ConnectionType.atc

/-- The activeConnection literal built for a controller in both the
new-connection and the restore branches of storeData (hasFlightPlan is left
at its Go zero value). -/
def newControllerConn (ctl : Controller) (ty : ConnectionType) : ActiveConn :=
  { cid := toString ctl.cid
    callsign := ctl.callsign
    connectionType := ty
    rating := ctl.rating
    server := ctl.server
    startTime := ctl.logonTime
    lastSeen := ctl.lastUpdated
    aircraftTracked := 0, aircraftSeen := 0, flightsAmended := 0
    handoffsInitiated := 0, handoffsReceived := 0, handoffsRefused := 0
    squawksAssigned := 0, cruiseAltsModified := 0, tempAltsModified := 0
    scratchpadMods := 0
    hasFlightPlan := false }

/-- Body of the controllers loop of storeData for one controller record. -/
def processController (failAt : Option Nat) (snapshotId : Nat) (now : Nat)
    (ctl : Controller) (t : Tx) : Except Mem Tx :=
  match txWrite failAt (Write.controllerInsert snapshotId ctl)
      (fun db => { db with controllers := db.controllers ++ [(snapshotId, ctl)] }) t with
  | Except.error m => Except.error m
  | Except.ok t1 =>
    match findOpenConn t1.db.connections (toString ctl.cid) ctl.callsign
        (resolveConnType ctl.textAtis) (now - 300) with
    | none =>
      match txWrite failAt
          (Write.connInsert
            { id := t1.db.nextConnId, vatsimId := toString ctl.cid
              type := resolveConnType ctl.textAtis, rating := ctl.rating
              callsign := ctl.callsign, startTime := ctl.logonTime
              endTime := ctl.lastUpdated, server := ctl.server })
          (fun db => { db with
            connections := db.connections ++
              [{ id := db.nextConnId, vatsimId := toString ctl.cid
                 type := resolveConnType ctl.textAtis, rating := ctl.rating
                 callsign := ctl.callsign, startTime := ctl.logonTime
                 endTime := ctl.lastUpdated, server := ctl.server }]
            nextConnId := db.nextConnId + 1 }) t1 with
      | Except.error m => Except.error m
      | Except.ok t2 =>
        let fresh := newControllerConn ctl (resolveConnType ctl.textAtis)
        Except.ok { t2 with mem := insertA t2.mem (mkKey ctl.cid ctl.callsign) fresh }
    | some r =>
      match txWrite failAt (Write.connUpdate r.id ctl.lastUpdated ctl.rating)
          (fun db => { db with connections := updateConnRow db.connections r.id ctl.lastUpdated ctl.rating }) t1 with
      | Except.error m => Except.error m
      | Except.ok t2 =>
        match lookupA t2.mem (mkKey ctl.cid ctl.callsign) with
        | some active =>
          let upd := { active with lastSeen := ctl.lastUpdated, rating := ctl.rating }
          Except.ok { t2 with mem := insertA t2.mem (mkKey ctl.cid ctl.callsign) upd }
        | none =>
          let fresh := newControllerConn ctl (resolveConnType ctl.textAtis)
          Except.ok { t2 with mem := insertA t2.mem (mkKey ctl.cid ctl.callsign) fresh }

/-- Controllers loop of storeData. -/
def processControllers (failAt : Option Nat) (snapshotId : Nat) (now : Nat) :
    List Controller → Tx → Except Mem Tx
  | [], t => Except.ok t
  | ctl :: cs, t =>
    match processController failAt snapshotId now ctl t with
    | Except.error m => Except.error m
    | Except.ok t1 => processControllers failAt snapshotId now cs t1

/-- Flight time of a finalized pilot session:
`int(conn.lastSeen.Sub(conn.startTime).Minutes() / 60)` — the number of
seconds between the boundaries, divided by 3600 with truncation toward zero
(Go's int conversion), i.e. whole hours. -/
def flightTimeOf (conn : ActiveConn) : Int :=
  Int.tdiv ((conn.lastSeen : Int) - (conn.startTime : Int)) 3600

/-- storeConnectionStats: insert the final connection row, then the
type-specific statistics; for pilots additionally the cumulative
pilot_total_stats upsert. For ATIS rows the Go code reuses the
aircraftTracked counter as the updates counter. -/
def storeConnectionStats (failAt : Option Nat) (conn : ActiveConn) (t : Tx) : Except Mem Tx :=
  match txWrite failAt
      (Write.connInsert
        { id := t.db.nextConnId, vatsimId := conn.cid
          type := conn.connectionType, rating := conn.rating
          callsign := conn.callsign, startTime := conn.startTime
          endTime := conn.lastSeen, server := conn.server })
      (fun db => { db with
        connections := db.connections ++
          [{ id := db.nextConnId, vatsimId := conn.cid
             type := conn.connectionType, rating := conn.rating
             callsign := conn.callsign, startTime := conn.startTime
             endTime := conn.lastSeen, server := conn.server }]
        nextConnId := db.nextConnId + 1 }) t with
  | Except.error m => Except.error m
  | Except.ok t1 =>
    match conn.connectionType with
    | ConnectionType.pilot =>
      match txWrite failAt
          (Write.pilotStatsInsert
            { connId := t.db.nextConnId, flightTime := flightTimeOf conn
              pilotRating := conn.rating, hasFlightPlan := conn.hasFlightPlan })
          (fun db => { db with
            pilotStats := db.pilotStats ++
              [{ connId := t.db.nextConnId, flightTime := flightTimeOf conn
                 pilotRating := conn.rating, hasFlightPlan := conn.hasFlightPlan }] }) t1 with
      | Except.error m => Except.error m
      | Except.ok t2 =>
        txWrite failAt
          (Write.pilotTotalsUpsert conn.cid (flightTimeOf conn) conn.rating conn.lastSeen)
          (fun db => { db with
            pilotTotals := upsertPilotTotals db.pilotTotals conn.cid
              (flightTimeOf conn) conn.rating conn.lastSeen }) t2
    | ConnectionType.atc =>
      txWrite failAt
        (Write.atcStatsInsert
          { connId := t.db.nextConnId
            aircraftTracked := conn.aircraftTracked, aircraftSeen := conn.aircraftSeen
            flightsAmended := conn.flightsAmended
            handoffsInitiated := conn.handoffsInitiated
            handoffsReceived := conn.handoffsReceived
            handoffsRefused := conn.handoffsRefused
            squawksAssigned := conn.squawksAssigned
            cruiseAltsModified := conn.cruiseAltsModified
            tempAltsModified := conn.tempAltsModified
            scratchpadMods := conn.scratchpadMods })
        (fun db => { db with
          atcStats := db.atcStats ++
            [{ connId := t.db.nextConnId
               aircraftTracked := conn.aircraftTracked, aircraftSeen := conn.aircraftSeen
               flightsAmended := conn.flightsAmended
               handoffsInitiated := conn.handoffsInitiated
               handoffsReceived := conn.handoffsReceived
               handoffsRefused := conn.handoffsRefused
               squawksAssigned := conn.squawksAssigned
               cruiseAltsModified := conn.cruiseAltsModified
               tempAltsModified := conn.tempAltsModified
               scratchpadMods := conn.scratchpadMods }] }) t1
    | ConnectionType.atis =>
      txWrite failAt (Write.atisStatsInsert t.db.nextConnId conn.aircraftTracked)
        (fun db => { db with
          atisStats := db.atisStats ++ [(t.db.nextConnId, conn.aircraftTracked)] }) t1

/-- The connection keys present in the snapshot (the currentConnections set
built across the pilots and controllers loops). -/
def currentKeys (data : VatsimData) : List String :=
  data.pilots.map (fun p => mkKey p.cid p.callsign) ++
    data.controllers.map (fun ctl => mkKey ctl.cid ctl.callsign)

/-- Disconnect loop of storeData: every tracked key absent from the snapshot
is finalized via storeConnectionStats and removed from the in-memory map.
The first argument is the entry list of the map at loop entry. -/
def processDisconnects (failAt : Option Nat) :
    List (String × ActiveConn) → List String → Tx → Except Mem Tx
  | [], _, t => Except.ok t
  | (key, conn) :: rest, current, t =>
    if key ∈ current then processDisconnects failAt rest current t
    else
      match storeConnectionStats failAt conn t with
      | Except.error m => Except.error m
      | Except.ok t1 =>
        processDisconnects failAt rest current { t1 with mem := removeA t1.mem key }

/-- storeData: one reconciliation transaction over one snapshot. On success
the returned Tx carries the committed durable state, the final in-memory map
and the write log; on failure the error carries the in-memory map as mutated
up to the failure point (the durable transaction rolls back). -/
def storeData (failAt : Option Nat) (db : DBState) (mem : Mem)
    (data : VatsimData) (now : Nat) : Except Mem Tx :=
  (processFacilities failAt data.facilities { db := db, mem := mem, writes := [], wc := 0 }).bind fun t1 =>
  (processRatingDefs failAt data.ratings t1).bind fun t2 =>
  (insertSnapshot failAt data.general t2).bind fun pair =>
  (processPilots failAt pair.1 now data.pilots pair.2).bind fun t4 =>
  (processControllers failAt pair.1 now data.controllers t4).bind fun t5 =>
  processDisconnects failAt t5.mem (currentKeys data) t5

/-- Collection statistics (types.CollectionStats). -/
structure CollectionStats where
  lastUpdate : Nat
  totalSnapshots : Nat
  activePilots : Nat
  activeATCs : Nat
  activeATIS : Nat
  processedPilots : Nat
  startTime : Nat
deriving DecidableEq, Repr

/-- Collector state: the snapshot cursor (lastUpdate), the Active Session
Table, and the collection statistics. -/
structure CollectorState where
  lastUpdate : String
  activeConnections : Mem
  stats : CollectionStats
deriving DecidableEq, Repr

/-- NewCollector: empty map, empty cursor, zeroed statistics. -/
def NewCollector (startTime : Nat) : CollectorState :=
  { lastUpdate := ""
    activeConnections := []
    stats :=
      { lastUpdate := 0, totalSnapshots := 0, activePilots := 0
        activeATCs := 0, activeATIS := 0, processedPilots := 0
        startTime := startTime } }

/-- The empty durable store (freshly created schema). -/
def DBState.empty : DBState :=
  { facilities := [], ratingDefs := [], snapshots := [], nextSnapshotId := 0
    pilots := [], nextPilotId := 0, flightPlans := [], controllers := []
    connections := [], nextConnId := 0, pilotStats := [], pilotTotals := []
    atcStats := [], atisStats := [], aux := [] }

/-- The ATC/ATIS counting loop of FetchAndStore
(`if len(controller.TextAtis) > 0 { ActiveATIS++ } else { ActiveATCs++ }`);
returns (ActiveATCs, ActiveATIS). -/
def countControllers (ctls : List Controller) : Nat × Nat :=
  ctls.foldl
    (fun acc ctl =>
      if ctl.textAtis.length > 0 then (acc.1, acc.2 + 1) else (acc.1 + 1, acc.2))
    (0, 0)

/-- storeNetworkStats: aggregate inserts outside the transaction; errors are
only logged. Payloads are summaries no claim references. -/
def storeNetworkStats (db : DBState) : DBState :=
  { db with aux := db.aux ++ [AuxWrite.networkStats] }

/-- storeAirportStats: aggregate inserts outside the transaction; errors are
only logged. Payloads are summaries no claim references. -/
def storeAirportStats (db : DBState) : DBState :=
  { db with aux := db.aux ++ [AuxWrite.airportStats] }

/-- Result of one FetchAndStore cycle. -/
structure FetchResult where
  coll : CollectorState
  db : DBState
  writes : List Write
  failed : Bool
deriving DecidableEq, Repr

/-- FetchAndStore over an already-fetched snapshot document (the HTTP fetch is
an external effect; a fetch error returns before everything modeled here).
If the update token equals the cursor the cycle is skipped entirely.
Otherwise storeData runs as one transaction; on its failure the cycle aborts
with the durable state rolled back, the cursor and the statistics untouched,
and the in-memory map as already mutated. On success the auxiliary statistics
are stored and the cursor and statistics are updated. -/
def FetchAndStore (c : CollectorState) (db : DBState) (data : VatsimData)
    (now : Nat) (failAt : Option Nat) : FetchResult :=
  if data.general.update = c.lastUpdate then
    { coll := c, db := db, writes := [], failed := false }
  else
    match storeData failAt db c.activeConnections data now with
    | Except.error m =>
      { coll := { c with activeConnections := m }, db := db, writes := [], failed := true }
    | Except.ok t =>
      { coll :=
          { lastUpdate := data.general.update
            activeConnections := t.mem
            stats :=
              { lastUpdate := now
                totalSnapshots := c.stats.totalSnapshots + 1
                activePilots := data.pilots.length
                activeATCs := (countControllers data.controllers).1
                activeATIS := (countControllers data.controllers).2
                processedPilots := c.stats.processedPilots + data.pilots.length
                startTime := c.stats.startTime } }
        db := storeAirportStats (storeNetworkStats t.db)
        writes := t.writes
        failed := false }

/-- The all-zero cumulative row: what the insert arm of the pilot_total_stats
upsert effectively adds its deltas to. -/
def zeroTotals : PilotTotals :=
  { totalHours := 0, totalFlights := 0, studentHours := 0, pplHours := 0
    instrumentHours := 0, cplHours := 0, atplHours := 0, lastUpdated := 0 }

/-- A minimal General section with the given update token. -/
def mkGeneral (u : String) : General :=
  { version := 3, reload := 1, update := u, updateTimestamp := 0
    connectedClients := 0, uniqueUsers := 0 }

/-- A snapshot with the given token, pilots and controllers. -/
def mkSnap (u : String) (ps : List Pilot) (cs : List Controller) : VatsimData :=
  { general := mkGeneral u, pilots := ps, controllers := cs, facilities := [], ratings := [] }

/-- A concrete pilot record for witnesses and counterexamples. -/
def samplePilot : Pilot :=
  { cid := 100, name := "Alice", callsign := "ABC123", server := "S1"
    pilotRating := 4, militaryRating := 0, latitude := 0, longitude := 0, altitude := 0
    groundspeed := 0, transponder := "1200", heading := 0, qnhIHg := 0, qnhMb := 0
    flightPlan := none, logonTime := 1000, lastUpdated := 1010 }

/-- A concrete controller record for witnesses and counterexamples. -/
def sampleController : Controller :=
  { cid := 300, name := "Carol", callsign := "KJFK_TWR", frequency := "118.700"
    facility := 4, rating := 7, server := "S1", visualRange := 50, textAtis := []
    lastUpdated := 1010, logonTime := 1000 }

/-- First cycle of the replay example: one pilot stored against an empty store. -/
def replayFirstCycle : FetchResult :=
  FetchAndStore (NewCollector 0) DBState.empty (mkSnap "tok1" [samplePilot] []) 1020 none

/-- A finalized tier-4 pilot session of 125 minutes (7500 seconds). -/
def c3Conn : ActiveConn :=
  { cid := "42", callsign := "X", connectionType := ConnectionType.pilot
    rating := 4, server := "S", startTime := 0, lastSeen := 7500
    aircraftTracked := 0, aircraftSeen := 0, flightsAmended := 0
    handoffsInitiated := 0, handoffsReceived := 0, handoffsRefused := 0
    squawksAssigned := 0, cruiseAltsModified := 0, tempAltsModified := 0
    scratchpadMods := 0, hasFlightPlan := false }

/-- An empty open transaction over the empty store. -/
def c3Tx : Tx := { db := DBState.empty, mem := [], writes := [], wc := 0 }

/-- Two fresh pilots in one snapshot, used for the fault-injection example. -/
def c2Snap : VatsimData :=
  mkSnap "tok1" [samplePilot, { samplePilot with cid := 200, callsign := "DEF456" }] []

/-- The fault-injection cycle: the second connection insert (transaction
write number 4) fails mid-transaction. -/
def c2Failed : FetchResult :=
  FetchAndStore (NewCollector 0) DBState.empty c2Snap 1020 (some 4)

/-- A pilot record with missing identity fields (zero cid, empty callsign). -/
def malformedPilot : Pilot := { samplePilot with cid := 0, callsign := "" }

/-- A cycle whose snapshot contains only the malformed pilot record. -/
def c7Res : FetchResult :=
  FetchAndStore (NewCollector 0) DBState.empty (mkSnap "tok1" [malformedPilot] []) 1020 none

/-- Field-wise order on the cumulative pilot counters (last_updated is a
timestamp, not a counter, and is not compared). -/
def totalsLE (a b : PilotTotals) : Prop :=
  a.totalHours ≤ b.totalHours ∧ a.totalFlights ≤ b.totalFlights ∧
  a.studentHours ≤ b.studentHours ∧ a.pplHours ≤ b.pplHours ∧
  a.instrumentHours ≤ b.instrumentHours ∧ a.cplHours ≤ b.cplHours ∧
  a.atplHours ≤ b.atplHours

/-- Row-wise domination of cumulative-totals tables: every existing row is
still present and none of its counters decreased. -/
def totalsTableLE (before after : List (String × PilotTotals)) : Prop :=
  ∀ cid t0, lookupA before cid = some t0 →
    ∃ t1, lookupA after cid = some t1 ∧ totalsLE t0 t1

/-- Recognizes the cumulative pilot_total_stats upsert in a write log. -/
def isTotalsUpsert : Write → Bool
  | Write.pilotTotalsUpsert _ _ _ _ => true
  | _ => false

/-- The sessions a snapshot closes: tracked pilot entries whose key is absent
from the snapshot's key set. -/
def closedPilotCount (entries : Mem) (current : List String) : Nat :=
  (entries.filter
    (fun kv => decide (kv.1 ∉ current ∧ kv.2.connectionType = ConnectionType.pilot))).length

/-- The stale in-memory pilot session used by the close-boundary witness. -/
def c8Conn : ActiveConn := newPilotConn samplePilot

/-- An open durable ATC row for sampleController. -/
def c9Row : ConnRow :=
  { id := 0, vatsimId := "300", type := ConnectionType.atc, rating := 7
    callsign := "KJFK_TWR", startTime := 1000, endTime := 1010, server := "S1" }

/-- A transaction state holding the open ATC row and its tracked session. -/
def c9Tx : Tx :=
  { db := { DBState.empty with connections := [c9Row], nextConnId := 1 }
    mem := [(mkKey 300 "KJFK_TWR", newControllerConn sampleController ConnectionType.atc)]
    writes := [], wc := 0 }

/-- The same controller, now broadcasting text: its classification flips to
ATIS between two snapshots. -/
def c9Ctl : Controller := { sampleController with textAtis := ["KJFK INFO B"] }

/-- One ATC controller (empty broadcast list), one ATIS controller, one pilot. -/
def c10Snap : VatsimData :=
  mkSnap "tok1" [samplePilot]
    [sampleController, { sampleController with callsign := "KJFK_ATIS", textAtis := ["KJFK INFO A"] }]

/-- Three-cycle reopen scenario: the pilot is present in cycle N, absent in
cycle N+1, present again (with a later source timestamp) in cycle N+2. -/
def reopenTrace (p : Pilot) (g1 g2 g3 : General) (s now1 now2 now3 t3v : Nat) : FetchResult :=
  let r1 := FetchAndStore (NewCollector s) DBState.empty
    { general := g1, pilots := [p], controllers := [], facilities := [], ratings := [] } now1 none
  let r2 := FetchAndStore r1.coll r1.db
    { general := g2, pilots := [], controllers := [], facilities := [], ratings := [] } now2 none
  FetchAndStore r2.coll r2.db
    { general := g3, pilots := [{ p with lastUpdated := t3v }], controllers := []
      facilities := [], ratings := [] } now3 none

/-- The concrete instance of the reopen scenario. -/
def c1Run3 : FetchResult :=
  reopenTrace samplePilot (mkGeneral "tokA") (mkGeneral "tokB") (mkGeneral "tokC")
    0 1020 1035 1050 1040

lemma lookupA_insertA_self {α : Type} (l : List (String × α)) (k : String) (v : α) :
    lookupA (insertA l k v) k = some v := by
  induction l with
  | nil => simp [insertA, lookupA]
  | cons kv rest ih =>
    by_cases h : kv.1 = k
    · simp [insertA, h, lookupA]
    · simp [insertA, h, lookupA, ih]

lemma lookupA_insertA_ne {α : Type} (l : List (String × α)) (k k' : String) (v : α)
    (h : k ≠ k') : lookupA (insertA l k v) k' = lookupA l k' := by
  induction l with
  | nil => simp [insertA, lookupA, h]
  | cons kv rest ih =>
    by_cases hk : kv.1 = k
    · simp [insertA, hk, lookupA, h]
    · simp [insertA, hk, lookupA, ih]

lemma mem_insertA_of_ne {α : Type} (k k' : String) (v v' : α) (h : k' ≠ k) :
    ∀ l : List (String × α), (k', v') ∈ l → (k', v') ∈ insertA l k v := by
  intro l
  induction l with
  | nil => intro hmem; simp at hmem
  | cons kv rest ih =>
    intro hmem
    rcases List.mem_cons.mp hmem with hmem | hmem
    · subst hmem
      simp [insertA, h]
    · by_cases hk : kv.1 = k
      · simp only [insertA, hk, if_pos]
        exact List.mem_cons_of_mem _ hmem
      · simp only [insertA, hk, if_neg, not_false_iff]
        exact List.mem_cons_of_mem _ (ih hmem)

lemma txWrite_none_eq (w : Write) (f : DBState → DBState) (t : Tx) :
    txWrite none w f t =
      Except.ok { db := f t.db, mem := t.mem, writes := t.writes ++ [w], wc := t.wc + 1 } := by
  simp [txWrite]

lemma processFacilities_none_ok (fs : List Facility) (t : Tx) :
    ∃ t', processFacilities none fs t = Except.ok t' := by
  induction fs generalizing t with
  | nil => exact ⟨t, rfl⟩
  | cons f fs ih => simpa [processFacilities, txWrite_none_eq] using ih _

lemma processRatingDefs_none_ok (rs : List RatingInfo) (t : Tx) :
    ∃ t', processRatingDefs none rs t = Except.ok t' := by
  induction rs generalizing t with
  | nil => exact ⟨t, rfl⟩
  | cons r rs ih => simpa [processRatingDefs, txWrite_none_eq] using ih _

lemma insertSnapshot_none_ok (g : General) (t : Tx) :
    ∃ p, insertSnapshot none g t = Except.ok p := by
  simp [insertSnapshot, txWrite_none_eq]

lemma processPilot_none_ok (sid now : Nat) (p : Pilot) (t : Tx) :
    ∃ t', processPilot none sid now p t = Except.ok t' := by
  unfold processPilot
  simp only [txWrite_none_eq]
  cases p.flightPlan <;> simp only [txWrite_none_eq] <;>
    rcases hf : findOpenConn _ _ _ _ _ with _ | r <;>
    simp only [hf, txWrite_none_eq] <;>
    first
      | exact ⟨_, rfl⟩
      | (rcases hl : lookupA _ _ with _ | a <;> simp only [hl] <;> exact ⟨_, rfl⟩)

lemma processPilots_none_ok (sid now : Nat) (ps : List Pilot) (t : Tx) :
    ∃ t', processPilots none sid now ps t = Except.ok t' := by
  induction ps generalizing t with
  | nil => exact ⟨t, rfl⟩
  | cons p ps ih =>
    obtain ⟨t1, h1⟩ := processPilot_none_ok sid now p t
    simpa [processPilots, h1] using ih t1

lemma processController_none_ok (sid now : Nat) (ctl : Controller) (t : Tx) :
    ∃ t', processController none sid now ctl t = Except.ok t' := by
  unfold processController
  simp only [txWrite_none_eq]
  rcases hf : findOpenConn _ _ _ _ _ with _ | r <;>
    simp only [hf, txWrite_none_eq] <;>
    first
      | exact ⟨_, rfl⟩
      | (rcases hl : lookupA _ _ with _ | a <;> simp only [hl] <;> exact ⟨_, rfl⟩)

lemma processControllers_none_ok (sid now : Nat) (cs : List Controller) (t : Tx) :
    ∃ t', processControllers none sid now cs t = Except.ok t' := by
  induction cs generalizing t with
  | nil => exact ⟨t, rfl⟩
  | cons ctl cs ih =>
    obtain ⟨t1, h1⟩ := processController_none_ok sid now ctl t
    simpa [processControllers, h1] using ih t1

lemma storeConnectionStats_none_ok (conn : ActiveConn) (t : Tx) :
    ∃ t', storeConnectionStats none conn t = Except.ok t' := by
  unfold storeConnectionStats
  simp only [txWrite_none_eq]
  cases conn.connectionType <;> simp [txWrite_none_eq]

lemma processDisconnects_none_ok (entries : List (String × ActiveConn))
    (current : List String) (t : Tx) :
    ∃ t', processDisconnects none entries current t = Except.ok t' := by
  induction entries generalizing t with
  | nil => exact ⟨t, rfl⟩
  | cons kv rest ih =>
    by_cases hk : kv.1 ∈ current
    · simpa [processDisconnects, hk] using ih t
    · obtain ⟨t1, h1⟩ := storeConnectionStats_none_ok kv.2 t
      simpa [processDisconnects, hk, h1] using ih _

lemma storeData_none_ok (db : DBState) (mem : Mem) (data : VatsimData) (now : Nat) :
    ∃ t, storeData none db mem data now = Except.ok t := by
  unfold storeData
  obtain ⟨t1, h1⟩ := processFacilities_none_ok data.facilities
    { db := db, mem := mem, writes := [], wc := 0 }
  obtain ⟨t2, h2⟩ := processRatingDefs_none_ok data.ratings t1
  obtain ⟨p3, h3⟩ := insertSnapshot_none_ok data.general t2
  obtain ⟨t4, h4⟩ := processPilots_none_ok p3.1 now data.pilots p3.2
  obtain ⟨t5, h5⟩ := processControllers_none_ok p3.1 now data.controllers t4
  obtain ⟨t6, h6⟩ := processDisconnects_none_ok t5.mem (currentKeys data) t5
  exact ⟨t6, by simp [h1, h2, h3, h4, h5, h6, Except.bind]⟩

lemma lookupA_upsertPilotTotals_self (l : List (String × PilotTotals)) (cid : String)
    (ft rating : Int) (ls : Nat) :
    lookupA (upsertPilotTotals l cid ft rating ls) cid = some
      { totalHours := ((lookupA l cid).getD zeroTotals).totalHours + ft
        totalFlights := ((lookupA l cid).getD zeroTotals).totalFlights + 1
        studentHours := ((lookupA l cid).getD zeroTotals).studentHours + (if rating = 1 then ft else 0)
        pplHours := ((lookupA l cid).getD zeroTotals).pplHours + (if rating = 2 then ft else 0)
        instrumentHours := ((lookupA l cid).getD zeroTotals).instrumentHours + (if rating = 3 then ft else 0)
        cplHours := ((lookupA l cid).getD zeroTotals).cplHours + (if rating = 4 then ft else 0)
        atplHours := ((lookupA l cid).getD zeroTotals).atplHours + (if rating = 5 then ft else 0)
        lastUpdated := ls } := by
  unfold upsertPilotTotals
  cases h : lookupA l cid with
  | none => simp [h, lookupA_insertA_self, zeroTotals]
  | some t => simp [h, lookupA_insertA_self]

lemma lookupA_upsertPilotTotals_ne (l : List (String × PilotTotals)) (cid cid' : String)
    (ft rating : Int) (ls : Nat) (h : cid ≠ cid') :
    lookupA (upsertPilotTotals l cid ft rating ls) cid' = lookupA l cid' := by
  unfold upsertPilotTotals
  cases hl : lookupA l cid <;> simp [lookupA_insertA_ne _ _ _ _ h]

lemma storeConnectionStats_pilot_totals (conn : ActiveConn) (t : Tx)
    (hty : conn.connectionType = ConnectionType.pilot) :
    ∃ t1, storeConnectionStats none conn t = Except.ok t1 ∧
      t1.db.pilotTotals =
        upsertPilotTotals t.db.pilotTotals conn.cid (flightTimeOf conn) conn.rating conn.lastSeen := by
  unfold storeConnectionStats
  simp [txWrite_none_eq, hty]

lemma flightTimeOf_eq_hours (conn : ActiveConn) (hse : conn.startTime ≤ conn.lastSeen) :
    flightTimeOf conn = (((conn.lastSeen - conn.startTime) / 60 / 60 : Nat) : Int) := by
  unfold flightTimeOf
  rw [Nat.div_div_eq_div_mul]
  rw [← Nat.cast_sub hse]
  rfl

/-- C6 counterexample: a controller record whose broadcast-text list contains a
single empty line is classified as broadcaster (ATIS), while the claim says a
record with no non-empty broadcast-text lines resolves to atc. -/
theorem emptyLineClassifiedAsAtis :
    resolveConnType [""] = ConnectionType.atis ∧
      resolveConnType [""] ≠ ConnectionType.atc := by
  constructor
  · rfl
  · intro h
    simp [resolveConnType] at h

/-- C6 (amended): the resolved session type is broadcaster (ATIS) iff the
broadcast-text list is non-empty as a list — one or more lines, whether or not
any line is itself non-empty — and atc otherwise; the code tests only
`len(controller.TextAtis) > 0`. -/
theorem classificationByListLength (textAtis : List String) :
    (resolveConnType textAtis = ConnectionType.atis ↔ textAtis ≠ []) ∧
      (resolveConnType textAtis = ConnectionType.atc ↔ textAtis = []) := by
  cases textAtis <;> simp [resolveConnType]

/-- C5: a FetchAndStore cycle whose snapshot carries the same update token as
the stored cursor is skipped entirely: zero durable writes, the Active Session
Table, the statistics, the cursor and the durable store all unchanged, and no
failure — regardless of any injected persistence fault. -/
theorem replayWithUnchangedTokenSkips (c : CollectorState) (db : DBState)
    (data : VatsimData) (now : Nat) (failAt : Option Nat)
    (h : data.general.update = c.lastUpdate) :
    FetchAndStore c db data now failAt =
      { coll := c, db := db, writes := [], failed := false } := by
  simp [FetchAndStore, h]

/-- C5 witness: the concrete replay — a first cycle stores one pilot, feeding
the same snapshot again changes nothing and writes nothing. -/
theorem replayWithUnchangedTokenSkips_witness :
    (mkSnap "tok1" [samplePilot] []).general.update = replayFirstCycle.coll.lastUpdate ∧
    FetchAndStore replayFirstCycle.coll replayFirstCycle.db
        (mkSnap "tok1" [samplePilot] []) 1035 none =
      { coll := replayFirstCycle.coll, db := replayFirstCycle.db
        writes := [], failed := false } :=
  ⟨rfl, replayWithUnchangedTokenSkips _ _ _ _ _ rfl⟩

/-- C3: for a finalized pilot session the computed flight hours are the floor
of the session minutes divided by 60 (whole hours of the interval from start
to last-seen), and the cumulative upsert adds exactly that value to
total_hours, 1 to total_flights, the same value to the single tier bucket
selected by rating codes 1..5 (each bucket gains the delta gated on its own
code), leaves every other participant's row unchanged, and — since each
bucket's delta is zero unless the rating equals its code — a rating outside
1..5 changes no tier bucket while still increasing total_hours and
total_flights. -/
theorem pilotSessionAggregation (conn : ActiveConn) (t : Tx)
    (hty : conn.connectionType = ConnectionType.pilot)
    (hse : conn.startTime ≤ conn.lastSeen) :
    flightTimeOf conn = (((conn.lastSeen - conn.startTime) / 60 / 60 : Nat) : Int) ∧
    ∃ t1, storeConnectionStats none conn t = Except.ok t1 ∧
      lookupA t1.db.pilotTotals conn.cid = some
        { totalHours := ((lookupA t.db.pilotTotals conn.cid).getD zeroTotals).totalHours + flightTimeOf conn
          totalFlights := ((lookupA t.db.pilotTotals conn.cid).getD zeroTotals).totalFlights + 1
          studentHours := ((lookupA t.db.pilotTotals conn.cid).getD zeroTotals).studentHours +
            (if conn.rating = 1 then flightTimeOf conn else 0)
          pplHours := ((lookupA t.db.pilotTotals conn.cid).getD zeroTotals).pplHours +
            (if conn.rating = 2 then flightTimeOf conn else 0)
          instrumentHours := ((lookupA t.db.pilotTotals conn.cid).getD zeroTotals).instrumentHours +
            (if conn.rating = 3 then flightTimeOf conn else 0)
          cplHours := ((lookupA t.db.pilotTotals conn.cid).getD zeroTotals).cplHours +
            (if conn.rating = 4 then flightTimeOf conn else 0)
          atplHours := ((lookupA t.db.pilotTotals conn.cid).getD zeroTotals).atplHours +
            (if conn.rating = 5 then flightTimeOf conn else 0)
          lastUpdated := conn.lastSeen } ∧
      ∀ cid', cid' ≠ conn.cid →
        lookupA t1.db.pilotTotals cid' = lookupA t.db.pilotTotals cid' := by
  refine ⟨flightTimeOf_eq_hours conn hse, ?_⟩
  obtain ⟨t1, h1, h2⟩ := storeConnectionStats_pilot_totals conn t hty
  refine ⟨t1, h1, ?_, ?_⟩
  · rw [h2]
    exact lookupA_upsertPilotTotals_self _ _ _ _ _
  · intro cid' hne
    rw [h2]
    exact lookupA_upsertPilotTotals_ne _ _ _ _ _ _ (Ne.symm hne)

/-- C3 witness: a tier-4 (Commercial) session of 125 minutes adds 2 to
total_hours, 2 to cpl_hours, 1 to total_flights, and nothing to any other
tier bucket. -/
theorem pilotSessionAggregation_witness :
    c3Conn.startTime ≤ c3Conn.lastSeen ∧
    (flightTimeOf c3Conn = ((2 : Nat) : Int) ∧
     ∃ t1, storeConnectionStats none c3Conn c3Tx = Except.ok t1 ∧
       lookupA t1.db.pilotTotals "42" = some
         { totalHours := 2, totalFlights := 1, studentHours := 0, pplHours := 0
           instrumentHours := 0, cplHours := 2, atplHours := 0, lastUpdated := 7500 } ∧
       ∀ cid', cid' ≠ "42" →
         lookupA t1.db.pilotTotals cid' = lookupA c3Tx.db.pilotTotals cid') :=
  ⟨by decide, pilotSessionAggregation c3Conn c3Tx rfl (by decide)⟩

lemma storeConnectionStats_none_mem (conn : ActiveConn) (t t' : Tx)
    (h : storeConnectionStats none conn t = Except.ok t') :
    Write.connInsert
      { id := t.db.nextConnId, vatsimId := conn.cid, type := conn.connectionType
        rating := conn.rating, callsign := conn.callsign, startTime := conn.startTime
        endTime := conn.lastSeen, server := conn.server } ∈ t'.writes := by
  unfold storeConnectionStats at h
  simp only [txWrite_none_eq] at h
  split at h <;> simp only [txWrite_none_eq, Except.ok.injEq] at h <;> subst h <;>
    simp_all [List.mem_append]

lemma storeConnectionStats_none_writes_sub (conn : ActiveConn) (t t' : Tx)
    (h : storeConnectionStats none conn t = Except.ok t') :
    ∀ w ∈ t.writes, w ∈ t'.writes := by
  unfold storeConnectionStats at h
  simp only [txWrite_none_eq] at h
  split at h <;> simp only [txWrite_none_eq, Except.ok.injEq] at h <;> subst h <;>
    intro w hw <;> simp [List.mem_append, hw]

lemma processDisconnects_none_writes_sub (entries : List (String × ActiveConn))
    (current : List String) :
    ∀ t t' : Tx, processDisconnects none entries current t = Except.ok t' →
      ∀ w ∈ t.writes, w ∈ t'.writes := by
  induction entries with
  | nil =>
    intro t t' h
    simp only [processDisconnects] at h
    injection h with h
    subst h
    exact fun w hw => hw
  | cons kv rest ih =>
    intro t t' h
    simp only [processDisconnects] at h
    by_cases hk : kv.1 ∈ current
    · rw [if_pos hk] at h
      exact ih t t' h
    · rw [if_neg hk] at h
      rcases hs : storeConnectionStats none kv.2 t with m | t1 <;> rw [hs] at h
      · cases h
      · intro w hw
        exact ih _ t' h w (storeConnectionStats_none_writes_sub kv.2 t t1 hs w hw)

lemma processPilot_none_writes_sub (sid now : Nat) (p : Pilot) (t t' : Tx)
    (h : processPilot none sid now p t = Except.ok t') :
    ∀ w ∈ t.writes, w ∈ t'.writes := by
  unfold processPilot at h
  simp only [txWrite_none_eq] at h
  rcases hfp : p.flightPlan with _ | fp <;> rw [hfp] at h <;>
    simp only [txWrite_none_eq] at h <;>
    split at h <;>
    first
      | (simp only [Except.ok.injEq] at h; subst h; intro w hw;
          simp [List.mem_append, hw])
      | (split at h <;> simp only [Except.ok.injEq] at h <;> subst h <;>
          intro w hw <;> simp [List.mem_append, hw])

lemma processPilot_none_insert_mem (sid now : Nat) (p : Pilot) (t t' : Tx)
    (h : processPilot none sid now p t = Except.ok t') :
    Write.pilotInsert t.db.nextPilotId sid p ∈ t'.writes := by
  unfold processPilot at h
  simp only [txWrite_none_eq] at h
  rcases hfp : p.flightPlan with _ | fp <;> rw [hfp] at h <;>
    simp only [txWrite_none_eq] at h <;>
    split at h <;>
    first
      | (simp only [Except.ok.injEq] at h; subst h; simp [List.mem_append])
      | (split at h <;> simp only [Except.ok.injEq] at h <;> subst h <;>
          simp [List.mem_append])

lemma processPilots_none_writes_sub (sid now : Nat) (ps : List Pilot) :
    ∀ t t' : Tx, processPilots none sid now ps t = Except.ok t' →
      ∀ w ∈ t.writes, w ∈ t'.writes := by
  induction ps with
  | nil =>
    intro t t' h
    simp only [processPilots] at h
    injection h with h
    subst h
    exact fun w hw => hw
  | cons p ps ih =>
    intro t t' h
    simp only [processPilots] at h
    rcases hs : processPilot none sid now p t with m | t1 <;> rw [hs] at h
    · cases h
    · intro w hw
      exact ih _ t' h w (processPilot_none_writes_sub sid now p t t1 hs w hw)

lemma processPilots_none_mem_insert (sid now : Nat) (ps : List Pilot) :
    ∀ t t' : Tx, processPilots none sid now ps t = Except.ok t' →
      ∀ p ∈ ps, ∃ i, Write.pilotInsert i sid p ∈ t'.writes := by
  induction ps with
  | nil => intro t t' h p hp; simp at hp
  | cons q ps ih =>
    intro t t' h p hp
    simp only [processPilots] at h
    rcases hs : processPilot none sid now q t with m | t1 <;> rw [hs] at h
    · cases h
    · rcases List.mem_cons.mp hp with hp | hp
      · subst hp
        have hmem := processPilot_none_insert_mem sid now p t t1 hs
        exact ⟨_, processPilots_none_writes_sub sid now ps t1 t' h _ hmem⟩
      · exact ih t1 t' h p hp

lemma processController_none_writes_sub (sid now : Nat) (ctl : Controller) (t t' : Tx)
    (h : processController none sid now ctl t = Except.ok t') :
    ∀ w ∈ t.writes, w ∈ t'.writes := by
  unfold processController at h
  simp only [txWrite_none_eq] at h
  split at h <;>
    first
      | (simp only [Except.ok.injEq] at h; subst h; intro w hw;
          simp [List.mem_append, hw])
      | (split at h <;> simp only [Except.ok.injEq] at h <;> subst h <;>
          intro w hw <;> simp [List.mem_append, hw])

lemma processControllers_none_writes_sub (sid now : Nat) (cs : List Controller) :
    ∀ t t' : Tx, processControllers none sid now cs t = Except.ok t' →
      ∀ w ∈ t.writes, w ∈ t'.writes := by
  induction cs with
  | nil =>
    intro t t' h
    simp only [processControllers] at h
    injection h with h
    subst h
    exact fun w hw => hw
  | cons ctl cs ih =>
    intro t t' h
    simp only [processControllers] at h
    rcases hs : processController none sid now ctl t with m | t1 <;> rw [hs] at h
    · cases h
    · intro w hw
      exact ih _ t' h w (processController_none_writes_sub sid now ctl t t1 hs w hw)

/-- C2 counterexample: a cycle with two new pilot sessions whose second
connection insert fails mid-transaction aborts with no commit, yet the Active
Session Table is NOT what it was before the cycle: it retains the first
pilot's entry, mutated before the failure point. -/
theorem memoryMutatedOnFailedCycle :
    c2Failed.failed = true ∧
      c2Failed.coll.activeConnections ≠ (NewCollector 0).activeConnections := by
  decide

/-- C2 (amended): if any durable write of the reconciliation transaction
fails, no durable write from that cycle is observable (the transaction rolls
back and the store is unchanged), the write log is empty, and the cursor and
collection statistics are untouched — but the in-memory Active Session Table
keeps whatever mutations were made before the failure point; it is NOT
restored to its pre-cycle contents. -/
theorem durableRollbackOnFailure (c : CollectorState) (db : DBState) (data : VatsimData)
    (now : Nat) (failAt : Option Nat)
    (hfail : (FetchAndStore c db data now failAt).failed = true) :
    (FetchAndStore c db data now failAt).db = db ∧
    (FetchAndStore c db data now failAt).writes = [] ∧
    (FetchAndStore c db data now failAt).coll.lastUpdate = c.lastUpdate ∧
    (FetchAndStore c db data now failAt).coll.stats = c.stats := by
  unfold FetchAndStore at hfail ⊢
  by_cases h : data.general.update = c.lastUpdate
  · rw [if_pos h] at hfail
    simp at hfail
  · rw [if_neg h] at hfail ⊢
    rcases hs : storeData failAt db c.activeConnections data now with m | t <;>
      rw [hs] at hfail
    · simp
    · simp at hfail

/-- C2 witness: the concrete fault-injection cycle rolls back every durable
effect and leaves cursor and statistics unchanged. -/
theorem durableRollbackOnFailure_witness :
    c2Failed.failed = true ∧
    (c2Failed.db = DBState.empty ∧ c2Failed.writes = [] ∧
     c2Failed.coll.lastUpdate = (NewCollector 0).lastUpdate ∧
     c2Failed.coll.stats = (NewCollector 0).stats) :=
  ⟨by decide,
   durableRollbackOnFailure (NewCollector 0) DBState.empty c2Snap 1020 (some 4) (by decide)⟩

/-- C7 counterexample: a pilot record with zero participant identity and empty
callsign is not skipped — the cycle processes it fully (it is inserted, a
connection row is written, and it is tracked in the Active Session Table
under the key "0-"), and no malformed-record count exists anywhere in the
collector state, contradicting the claim that such records are skipped and
counted. -/
theorem malformedRecordIsProcessed :
    c7Res.failed = false ∧
    lookupA c7Res.coll.activeConnections "0-" = some (newPilotConn malformedPilot) ∧
    Write.pilotInsert 0 0 malformedPilot ∈ c7Res.writes := by
  decide

/-- C7 (amended): storeData performs no validation of identity fields — every
pilot record of the snapshot, including one with zero identity or empty
callsign, is processed and written (its pilots-table insert appears in the
cycle's write log), the cycle completes without aborting, and no
malformed-record count is maintained (the collection statistics carry no such
field). -/
theorem everyRecordProcessed (db : DBState) (mem : Mem) (data : VatsimData) (now : Nat)
    (p : Pilot) (hp : p ∈ data.pilots) :
    ∃ t, storeData none db mem data now = Except.ok t ∧
      ∃ i sid, Write.pilotInsert i sid p ∈ t.writes := by
  obtain ⟨t, ht⟩ := storeData_none_ok db mem data now
  refine ⟨t, ht, ?_⟩
  unfold storeData at ht
  rcases h1 : processFacilities none data.facilities
      { db := db, mem := mem, writes := [], wc := 0 } with m | t1 <;> rw [h1] at ht
  · cases ht
  simp only [Except.bind] at ht
  rcases h2 : processRatingDefs none data.ratings t1 with m | t2 <;> rw [h2] at ht
  · cases ht
  simp only [Except.bind] at ht
  rcases h3 : insertSnapshot none data.general t2 with m | pr <;> rw [h3] at ht
  · cases ht
  simp only [Except.bind] at ht
  rcases h4 : processPilots none pr.1 now data.pilots pr.2 with m | t4 <;> rw [h4] at ht
  · cases ht
  simp only [Except.bind] at ht
  rcases h5 : processControllers none pr.1 now data.controllers t4 with m | t5 <;> rw [h5] at ht
  · cases ht
  simp only [Except.bind] at ht
  obtain ⟨i, hi⟩ := processPilots_none_mem_insert pr.1 now data.pilots pr.2 t4 h4 p hp
  have hi5 := processControllers_none_writes_sub pr.1 now data.controllers t4 t5 h5 _ hi
  have hi6 := processDisconnects_none_writes_sub t5.mem (currentKeys data) t5 t ht _ hi5
  exact ⟨i, pr.1, hi6⟩

/-- C7 amended-claim witness: the malformed record itself is processed and
its insert is logged. -/
theorem everyRecordProcessed_witness :
    malformedPilot ∈ (mkSnap "tok1" [malformedPilot] []).pilots ∧
    ∃ t, storeData none DBState.empty [] (mkSnap "tok1" [malformedPilot] []) 1020 = Except.ok t ∧
      ∃ i sid, Write.pilotInsert i sid malformedPilot ∈ t.writes :=
  ⟨by simp [mkSnap],
   everyRecordProcessed DBState.empty [] (mkSnap "tok1" [malformedPilot] []) 1020
     malformedPilot (by simp [mkSnap])⟩

lemma countControllers_go (ctls : List Controller) (a b : Nat) :
    ctls.foldl
      (fun acc ctl =>
        if ctl.textAtis.length > 0 then (acc.1, acc.2 + 1) else (acc.1 + 1, acc.2))
      (a, b) =
    (a + (ctls.filter (fun ctl => ctl.textAtis = [])).length,
     b + (ctls.filter (fun ctl => ctl.textAtis ≠ [])).length) := by
  induction ctls generalizing a b with
  | nil => simp
  | cons c cs ih =>
    by_cases hc : c.textAtis = []
    · have hlen : ¬ c.textAtis.length > 0 := by simp [hc]
      simp only [List.foldl_cons, List.filter_cons]
      rw [if_neg hlen, ih]
      simp [hc, decide_not]
      omega
    · have hlen : c.textAtis.length > 0 := by
        cases hta : c.textAtis with
        | nil => exact absurd hta hc
        | cons x xs => simp
      simp only [List.foldl_cons, List.filter_cons]
      rw [if_pos hlen, ih]
      simp [hc, decide_not]
      omega

lemma countControllers_eq (ctls : List Controller) :
    countControllers ctls =
      ((ctls.filter (fun ctl => ctl.textAtis = [])).length,
       (ctls.filter (fun ctl => ctl.textAtis ≠ [])).length) := by
  unfold countControllers
  rw [countControllers_go]
  simp

lemma filter_partition_length (ctls : List Controller) :
    (ctls.filter (fun ctl => ctl.textAtis = [])).length +
      (ctls.filter (fun ctl => ctl.textAtis ≠ [])).length = ctls.length := by
  induction ctls with
  | nil => rfl
  | cons c cs ih =>
    simp only [List.filter_cons, decide_not] at ih ⊢
    by_cases hc : c.textAtis = []
    · simp [hc]
      omega
    · simp [hc]
      omega

/-- C10: a successful FetchAndStore cycle over a new update token counts every
controller record in exactly one of ActiveATCs / ActiveATIS, partitioned by
whether its broadcast-text list is non-empty, so their sum is the number of
controller records and ActivePilots is the number of pilot records. -/
theorem statsPartitionControllers (c : CollectorState) (db : DBState) (data : VatsimData)
    (now : Nat) (hnew : data.general.update ≠ c.lastUpdate) :
    (FetchAndStore c db data now none).failed = false ∧
    (FetchAndStore c db data now none).coll.stats.activeATIS =
      (data.controllers.filter (fun ctl => ctl.textAtis ≠ [])).length ∧
    (FetchAndStore c db data now none).coll.stats.activeATCs =
      (data.controllers.filter (fun ctl => ctl.textAtis = [])).length ∧
    (FetchAndStore c db data now none).coll.stats.activeATCs +
      (FetchAndStore c db data now none).coll.stats.activeATIS =
      data.controllers.length ∧
    (FetchAndStore c db data now none).coll.stats.activePilots = data.pilots.length := by
  obtain ⟨t, ht⟩ := storeData_none_ok db c.activeConnections data now
  unfold FetchAndStore
  rw [if_neg hnew, ht]
  refine ⟨rfl, ?_, ?_, ?_, rfl⟩
  · simp [countControllers_eq]
  · simp [countControllers_eq]
  · have hp := filter_partition_length data.controllers
    simp only [countControllers_eq, decide_not] at hp ⊢
    omega

lemma processFacilities_none_mem_eq (fs : List Facility) :
    ∀ t t' : Tx, processFacilities none fs t = Except.ok t' → t'.mem = t.mem := by
  induction fs with
  | nil =>
    intro t t' h
    injection h with h
    rw [← h]
  | cons f fs ih =>
    intro t t' h
    simp only [processFacilities, txWrite_none_eq] at h
    rw [ih _ _ h]

lemma processRatingDefs_none_mem_eq (rs : List RatingInfo) :
    ∀ t t' : Tx, processRatingDefs none rs t = Except.ok t' → t'.mem = t.mem := by
  induction rs with
  | nil =>
    intro t t' h
    injection h with h
    rw [← h]
  | cons r rs ih =>
    intro t t' h
    simp only [processRatingDefs, txWrite_none_eq] at h
    rw [ih _ _ h]

lemma insertSnapshot_none_mem_eq (g : General) (t : Tx) (p : Nat × Tx)
    (h : insertSnapshot none g t = Except.ok p) : p.2.mem = t.mem := by
  simp only [insertSnapshot, txWrite_none_eq] at h
  injection h with h
  rw [← h]

lemma processPilot_none_mem_pres (sid now : Nat) (p : Pilot) (t t' : Tx)
    (h : processPilot none sid now p t = Except.ok t')
    (key : String) (conn : ActiveConn)
    (hmem : (key, conn) ∈ t.mem) (hne : key ≠ mkKey p.cid p.callsign) :
    (key, conn) ∈ t'.mem := by
  unfold processPilot at h
  simp only [txWrite_none_eq] at h
  rcases hfp : p.flightPlan with _ | fp <;> rw [hfp] at h <;>
    simp only [txWrite_none_eq] at h <;>
    split at h <;>
    first
      | (simp only [Except.ok.injEq] at h; subst h;
          exact mem_insertA_of_ne _ _ _ _ hne _ hmem)
      | (split at h <;> simp only [Except.ok.injEq] at h <;> subst h <;>
          exact mem_insertA_of_ne _ _ _ _ hne _ hmem)

lemma processPilots_none_mem_pres (sid now : Nat) (ps : List Pilot) :
    ∀ t t' : Tx, processPilots none sid now ps t = Except.ok t' →
      ∀ key conn, (key, conn) ∈ t.mem →
        (∀ p ∈ ps, key ≠ mkKey p.cid p.callsign) → (key, conn) ∈ t'.mem := by
  induction ps with
  | nil =>
    intro t t' h key conn hmem _
    injection h with h
    rw [← h]
    exact hmem
  | cons q ps ih =>
    intro t t' h key conn hmem hk
    simp only [processPilots] at h
    rcases hs : processPilot none sid now q t with m | t1 <;> rw [hs] at h
    · cases h
    · have h1 := processPilot_none_mem_pres sid now q t t1 hs key conn hmem
        (hk q (List.mem_cons_self q ps))
      exact ih t1 t' h key conn h1 (fun p hp => hk p (List.mem_cons_of_mem _ hp))

lemma processController_none_mem_pres (sid now : Nat) (ctl : Controller) (t t' : Tx)
    (h : processController none sid now ctl t = Except.ok t')
    (key : String) (conn : ActiveConn)
    (hmem : (key, conn) ∈ t.mem) (hne : key ≠ mkKey ctl.cid ctl.callsign) :
    (key, conn) ∈ t'.mem := by
  unfold processController at h
  simp only [txWrite_none_eq] at h
  split at h <;>
    first
      | (simp only [Except.ok.injEq] at h; subst h;
          exact mem_insertA_of_ne _ _ _ _ hne _ hmem)
      | (split at h <;> simp only [Except.ok.injEq] at h <;> subst h <;>
          exact mem_insertA_of_ne _ _ _ _ hne _ hmem)

lemma processControllers_none_mem_pres (sid now : Nat) (cs : List Controller) :
    ∀ t t' : Tx, processControllers none sid now cs t = Except.ok t' →
      ∀ key conn, (key, conn) ∈ t.mem →
        (∀ ctl ∈ cs, key ≠ mkKey ctl.cid ctl.callsign) → (key, conn) ∈ t'.mem := by
  induction cs with
  | nil =>
    intro t t' h key conn hmem _
    injection h with h
    rw [← h]
    exact hmem
  | cons q cs ih =>
    intro t t' h key conn hmem hk
    simp only [processControllers] at h
    rcases hs : processController none sid now q t with m | t1 <;> rw [hs] at h
    · cases h
    · have h1 := processController_none_mem_pres sid now q t t1 hs key conn hmem
        (hk q (List.mem_cons_self q cs))
      exact ih t1 t' h key conn h1 (fun ctl hc => hk ctl (List.mem_cons_of_mem _ hc))

lemma processDisconnects_none_close_write (current : List String) :
    ∀ (entries : List (String × ActiveConn)) (t t' : Tx),
      processDisconnects none entries current t = Except.ok t' →
      ∀ key conn, (key, conn) ∈ entries → key ∉ current →
        ∃ row, Write.connInsert row ∈ t'.writes ∧
          row.vatsimId = conn.cid ∧ row.callsign = conn.callsign ∧
          row.type = conn.connectionType ∧
          row.startTime = conn.startTime ∧ row.endTime = conn.lastSeen := by
  intro entries
  induction entries with
  | nil => intro t t' h key conn hmem _; simp at hmem
  | cons kv rest ih =>
    intro t t' h key conn hmem habs
    simp only [processDisconnects] at h
    rcases List.mem_cons.mp hmem with hmem | hmem
    · subst hmem
      rw [if_neg habs] at h
      rcases hs : storeConnectionStats none conn t with m | t1 <;> rw [hs] at h
      · cases h
      · have hrow := storeConnectionStats_none_mem conn t t1 hs
        have hsub := processDisconnects_none_writes_sub rest current _ t' h
        exact ⟨_, hsub _ hrow, rfl, rfl, rfl, rfl, rfl⟩
    · by_cases hk : kv.1 ∈ current
      · rw [if_pos hk] at h
        exact ih t t' h key conn hmem habs
      · rw [if_neg hk] at h
        rcases hs : storeConnectionStats none kv.2 t with m | t1 <;> rw [hs] at h
        · cases h
        · exact ih _ t' h key conn hmem habs

/-- C8: a session closed because its key is absent from the snapshot is
finalized with end boundary equal to the session's stored last-seen time
(the source timestamp at which the key was last observed): the close row's
end field is `conn.lastSeen` for every wall-clock value `now`, so the
detection time never enters the boundary. -/
theorem closeBoundaryIsLastSeen (db : DBState) (mem : Mem) (data : VatsimData)
    (now : Nat) (key : String) (conn : ActiveConn)
    (hmem : (key, conn) ∈ mem) (habs : key ∉ currentKeys data) :
    ∃ t, storeData none db mem data now = Except.ok t ∧
      ∃ row, Write.connInsert row ∈ t.writes ∧
        row.vatsimId = conn.cid ∧ row.callsign = conn.callsign ∧
        row.type = conn.connectionType ∧
        row.startTime = conn.startTime ∧ row.endTime = conn.lastSeen := by
  obtain ⟨t, ht⟩ := storeData_none_ok db mem data now
  refine ⟨t, ht, ?_⟩
  unfold storeData at ht
  rcases h1 : processFacilities none data.facilities
      { db := db, mem := mem, writes := [], wc := 0 } with m | t1 <;> rw [h1] at ht
  · cases ht
  simp only [Except.bind] at ht
  rcases h2 : processRatingDefs none data.ratings t1 with m | t2 <;> rw [h2] at ht
  · cases ht
  simp only [Except.bind] at ht
  rcases h3 : insertSnapshot none data.general t2 with m | pr <;> rw [h3] at ht
  · cases ht
  simp only [Except.bind] at ht
  rcases h4 : processPilots none pr.1 now data.pilots pr.2 with m | t4 <;> rw [h4] at ht
  · cases ht
  simp only [Except.bind] at ht
  rcases h5 : processControllers none pr.1 now data.controllers t4 with m | t5 <;> rw [h5] at ht
  · cases ht
  simp only [Except.bind] at ht
  have hm3 : (key, conn) ∈ pr.2.mem := by
    rw [insertSnapshot_none_mem_eq data.general t2 pr h3,
      processRatingDefs_none_mem_eq data.ratings t1 t2 h2,
      processFacilities_none_mem_eq data.facilities _ t1 h1]
    exact hmem
  have hkeyp : ∀ p ∈ data.pilots, key ≠ mkKey p.cid p.callsign := by
    intro p hp heq
    apply habs
    unfold currentKeys
    apply List.mem_append_left
    rw [heq]
    exact List.mem_map_of_mem _ hp
  have hkeyc : ∀ ctl ∈ data.controllers, key ≠ mkKey ctl.cid ctl.callsign := by
    intro ctl hc heq
    apply habs
    unfold currentKeys
    apply List.mem_append_right
    rw [heq]
    exact List.mem_map_of_mem _ hc
  have hm4 := processPilots_none_mem_pres pr.1 now data.pilots pr.2 t4 h4 key conn hm3 hkeyp
  have hm5 := processControllers_none_mem_pres pr.1 now data.controllers t4 t5 h5 key conn hm4 hkeyc
  exact processDisconnects_none_close_write (currentKeys data) t5.mem t5 t ht key conn hm5 habs

/-- C10 witness: one pilot, one plain ATC controller and one text-carrying
ATIS controller are counted 1 / 1 / 1, with 1 + 1 covering both controllers. -/
theorem statsPartitionControllers_witness :
    c10Snap.general.update ≠ (NewCollector 0).lastUpdate ∧
    ((FetchAndStore (NewCollector 0) DBState.empty c10Snap 1020 none).failed = false ∧
     (FetchAndStore (NewCollector 0) DBState.empty c10Snap 1020 none).coll.stats.activeATIS = 1 ∧
     (FetchAndStore (NewCollector 0) DBState.empty c10Snap 1020 none).coll.stats.activeATCs = 1 ∧
     (FetchAndStore (NewCollector 0) DBState.empty c10Snap 1020 none).coll.stats.activeATCs +
       (FetchAndStore (NewCollector 0) DBState.empty c10Snap 1020 none).coll.stats.activeATIS = 2 ∧
     (FetchAndStore (NewCollector 0) DBState.empty c10Snap 1020 none).coll.stats.activePilots = 1) :=
  ⟨by decide,
   statsPartitionControllers (NewCollector 0) DBState.empty c10Snap 1020 (by decide)⟩

/-- C8 witness: a tracked session (last seen at source time 1010) closed by a
snapshot that no longer lists it is finalized with end boundary 1010 even when
the wall clock at detection reads 99999. -/
theorem closeBoundaryIsLastSeen_witness :
    ("100-ABC123", c8Conn) ∈ [("100-ABC123", c8Conn)] ∧
    "100-ABC123" ∉ currentKeys (mkSnap "tok9" [] []) ∧
    (∃ t, storeData none DBState.empty [("100-ABC123", c8Conn)] (mkSnap "tok9" [] []) 99999 =
        Except.ok t ∧
      ∃ row, Write.connInsert row ∈ t.writes ∧
        row.vatsimId = c8Conn.cid ∧ row.callsign = c8Conn.callsign ∧
        row.type = c8Conn.connectionType ∧
        row.startTime = c8Conn.startTime ∧ row.endTime = c8Conn.lastSeen) :=
  ⟨by decide, by decide,
   closeBoundaryIsLastSeen DBState.empty [("100-ABC123", c8Conn)] (mkSnap "tok9" [] [])
     99999 "100-ABC123" c8Conn (by decide) (by decide)⟩

lemma findOpenConn_eq_none (conns : List ConnRow) (vid cs : String)
    (ty : ConnectionType) (cutoff : Nat)
    (h : ∀ r ∈ conns,
      ¬(r.vatsimId = vid ∧ r.callsign = cs ∧ r.type = ty ∧ cutoff < r.endTime)) :
    findOpenConn conns vid cs ty cutoff = none := by
  unfold findOpenConn
  have hf : conns.filter
      (fun r => decide (r.vatsimId = vid ∧ r.callsign = cs ∧ r.type = ty ∧ cutoff < r.endTime)) = [] := by
    rw [List.filter_eq_nil_iff]
    intro r hr
    simpa using h r hr
  rw [hf]
  rfl

/-- C9: the durable continuation lookup filters on identity, callsign AND
resolved connection type; for a controller whose classification flips (its
broadcast-text list switches between empty and non-empty) while an open row
of the old type is within the grace window and no open row of the new type
exists, the cycle does not continue the old record: it appends exactly one
brand-new connection row of the new type (a controller insert and a
connection insert, no update statement) and leaves the earlier row in place
unchanged. -/
theorem typeFlipInsertsNewRow (sid now : Nat) (ctl : Controller) (t : Tx) (r : ConnRow)
    (hr : r ∈ t.db.connections)
    (hid : r.vatsimId = toString ctl.cid) (hcs : r.callsign = ctl.callsign)
    (hopen : now - 300 < r.endTime)
    (hflip : r.type ≠ resolveConnType ctl.textAtis)
    (hnone : ∀ r2 ∈ t.db.connections, r2.type = resolveConnType ctl.textAtis →
      ¬(r2.vatsimId = toString ctl.cid ∧ r2.callsign = ctl.callsign ∧
        now - 300 < r2.endTime)) :
    ∃ t', processController none sid now ctl t = Except.ok t' ∧
      t'.db.connections = t.db.connections ++
        [{ id := t.db.nextConnId, vatsimId := toString ctl.cid
           type := resolveConnType ctl.textAtis, rating := ctl.rating
           callsign := ctl.callsign, startTime := ctl.logonTime
           endTime := ctl.lastUpdated, server := ctl.server }] ∧
      r ∈ t'.db.connections ∧
      t'.writes = t.writes ++
        [Write.controllerInsert sid ctl,
         Write.connInsert
           { id := t.db.nextConnId, vatsimId := toString ctl.cid
             type := resolveConnType ctl.textAtis, rating := ctl.rating
             callsign := ctl.callsign, startTime := ctl.logonTime
             endTime := ctl.lastUpdated, server := ctl.server }] := by
  have hfind : findOpenConn t.db.connections (toString ctl.cid) ctl.callsign
      (resolveConnType ctl.textAtis) (now - 300) = none := by
    apply findOpenConn_eq_none
    intro r2 hr2 hand
    exact hnone r2 hr2 hand.2.2.1 ⟨hand.1, hand.2.1, hand.2.2.2⟩
  unfold processController
  rw [txWrite_none_eq]
  simp only [hfind, txWrite_none_eq]
  refine ⟨_, rfl, by simp, ?_, by simp⟩
  simp [List.mem_append, hr]

/-- C9 witness: an ATC session whose record starts broadcasting text is not
continued — a second, ATIS-typed row is inserted and the ATC row survives
untouched. -/
theorem typeFlipInsertsNewRow_witness :
    c9Row ∈ c9Tx.db.connections ∧
    c9Row.type ≠ resolveConnType c9Ctl.textAtis ∧
    (∃ t', processController none 1 1020 c9Ctl c9Tx = Except.ok t' ∧
      t'.db.connections = c9Tx.db.connections ++
        [{ id := 1, vatsimId := "300", type := ConnectionType.atis, rating := 7
           callsign := "KJFK_TWR", startTime := 1000, endTime := 1010, server := "S1" }] ∧
      c9Row ∈ t'.db.connections ∧
      t'.writes = c9Tx.writes ++
        [Write.controllerInsert 1 c9Ctl,
         Write.connInsert
           { id := 1, vatsimId := "300", type := ConnectionType.atis, rating := 7
             callsign := "KJFK_TWR", startTime := 1000, endTime := 1010, server := "S1" }]) :=
  ⟨by decide, by decide,
   typeFlipInsertsNewRow 1 1020 c9Ctl c9Tx c9Row (by decide) (by decide) (by decide)
     (by decide) (by decide) (by decide)⟩

lemma totalsTableLE_refl (l : List (String × PilotTotals)) : totalsTableLE l l :=
  fun _ t0 h0 => ⟨t0, h0, le_refl _, le_refl _, le_refl _, le_refl _, le_refl _, le_refl _, le_refl _⟩

lemma totalsTableLE_trans (a b c : List (String × PilotTotals))
    (hab : totalsTableLE a b) (hbc : totalsTableLE b c) : totalsTableLE a c := by
  intro cid t0 h0
  obtain ⟨t1, h1, l1⟩ := hab cid t0 h0
  obtain ⟨t2, h2, l2⟩ := hbc cid t1 h1
  obtain ⟨a1, a2, a3, a4, a5, a6, a7⟩ := l1
  obtain ⟨b1, b2, b3, b4, b5, b6, b7⟩ := l2
  exact ⟨t2, h2, le_trans a1 b1, le_trans a2 b2, le_trans a3 b3, le_trans a4 b4,
    le_trans a5 b5, le_trans a6 b6, le_trans a7 b7⟩

lemma upsert_totalsTableLE (l : List (String × PilotTotals)) (cid : String)
    (ft rating : Int) (ls : Nat) (hft : 0 ≤ ft) :
    totalsTableLE l (upsertPilotTotals l cid ft rating ls) := by
  intro cid' t0 h0
  by_cases hc : cid' = cid
  · subst hc
    refine ⟨_, lookupA_upsertPilotTotals_self l cid' ft rating ls, ?_⟩
    rw [h0]
    have hdelta : ∀ k : Int, 0 ≤ (if rating = k then ft else 0) := by
      intro k
      split
      · exact hft
      · exact le_refl 0
    exact ⟨by simpa using hft, by simp, by simpa using hdelta 1, by simpa using hdelta 2,
      by simpa using hdelta 3, by simpa using hdelta 4, by simpa using hdelta 5⟩
  · refine ⟨t0, ?_, le_refl _, le_refl _, le_refl _, le_refl _, le_refl _, le_refl _, le_refl _⟩
    rw [lookupA_upsertPilotTotals_ne l cid cid' ft rating ls (fun he => hc he.symm)]
    exact h0

lemma flightTimeOf_nonneg (conn : ActiveConn) (hse : conn.startTime ≤ conn.lastSeen) :
    0 ≤ flightTimeOf conn := by
  rw [flightTimeOf_eq_hours conn hse]
  exact Int.natCast_nonneg _

lemma processFacilities_none_totals (fs : List Facility) :
    ∀ t t' : Tx, processFacilities none fs t = Except.ok t' →
      t'.db.pilotTotals = t.db.pilotTotals ∧
      t'.writes.countP isTotalsUpsert = t.writes.countP isTotalsUpsert := by
  induction fs with
  | nil =>
    intro t t' h
    injection h with h
    subst h
    exact ⟨rfl, rfl⟩
  | cons f fs ih =>
    intro t t' h
    simp only [processFacilities, txWrite_none_eq] at h
    obtain ⟨h1, h2⟩ := ih _ _ h
    refine ⟨h1, ?_⟩
    rw [h2]
    simp [List.countP_append, isTotalsUpsert]

lemma processRatingDefs_none_totals (rs : List RatingInfo) :
    ∀ t t' : Tx, processRatingDefs none rs t = Except.ok t' →
      t'.db.pilotTotals = t.db.pilotTotals ∧
      t'.writes.countP isTotalsUpsert = t.writes.countP isTotalsUpsert := by
  induction rs with
  | nil =>
    intro t t' h
    injection h with h
    subst h
    exact ⟨rfl, rfl⟩
  | cons r rs ih =>
    intro t t' h
    simp only [processRatingDefs, txWrite_none_eq] at h
    obtain ⟨h1, h2⟩ := ih _ _ h
    refine ⟨h1, ?_⟩
    rw [h2]
    simp [List.countP_append, isTotalsUpsert]

lemma insertSnapshot_none_totals (g : General) (t : Tx) (p : Nat × Tx)
    (h : insertSnapshot none g t = Except.ok p) :
    p.2.db.pilotTotals = t.db.pilotTotals ∧
    p.2.writes.countP isTotalsUpsert = t.writes.countP isTotalsUpsert := by
  simp only [insertSnapshot, txWrite_none_eq] at h
  injection h with h
  rw [← h]
  exact ⟨rfl, by simp [List.countP_append, isTotalsUpsert]⟩

lemma processPilot_none_totals (sid now : Nat) (p : Pilot) (t t' : Tx)
    (h : processPilot none sid now p t = Except.ok t') :
    t'.db.pilotTotals = t.db.pilotTotals ∧
    t'.writes.countP isTotalsUpsert = t.writes.countP isTotalsUpsert := by
  unfold processPilot at h
  simp only [txWrite_none_eq] at h
  rcases hfp : p.flightPlan with _ | fp <;> rw [hfp] at h <;>
    simp only [txWrite_none_eq] at h <;>
    split at h <;>
    first
      | (simp only [Except.ok.injEq] at h; subst h;
          exact ⟨rfl, by simp [List.countP_append, isTotalsUpsert]⟩)
      | (split at h <;> simp only [Except.ok.injEq] at h <;> subst h <;>
          exact ⟨rfl, by simp [List.countP_append, isTotalsUpsert]⟩)

lemma processPilots_none_totals (sid now : Nat) (ps : List Pilot) :
    ∀ t t' : Tx, processPilots none sid now ps t = Except.ok t' →
      t'.db.pilotTotals = t.db.pilotTotals ∧
      t'.writes.countP isTotalsUpsert = t.writes.countP isTotalsUpsert := by
  induction ps with
  | nil =>
    intro t t' h
    injection h with h
    subst h
    exact ⟨rfl, rfl⟩
  | cons q ps ih =>
    intro t t' h
    simp only [processPilots] at h
    rcases hs : processPilot none sid now q t with m | t1 <;> rw [hs] at h
    · cases h
    · obtain ⟨a1, a2⟩ := processPilot_none_totals sid now q t t1 hs
      obtain ⟨b1, b2⟩ := ih t1 t' h
      exact ⟨by rw [b1, a1], by rw [b2, a2]⟩

lemma processController_none_totals (sid now : Nat) (ctl : Controller) (t t' : Tx)
    (h : processController none sid now ctl t = Except.ok t') :
    t'.db.pilotTotals = t.db.pilotTotals ∧
    t'.writes.countP isTotalsUpsert = t.writes.countP isTotalsUpsert := by
  unfold processController at h
  simp only [txWrite_none_eq] at h
  split at h <;>
    first
      | (simp only [Except.ok.injEq] at h; subst h;
          exact ⟨rfl, by simp [List.countP_append, isTotalsUpsert]⟩)
      | (split at h <;> simp only [Except.ok.injEq] at h <;> subst h <;>
          exact ⟨rfl, by simp [List.countP_append, isTotalsUpsert]⟩)

lemma processControllers_none_totals (sid now : Nat) (cs : List Controller) :
    ∀ t t' : Tx, processControllers none sid now cs t = Except.ok t' →
      t'.db.pilotTotals = t.db.pilotTotals ∧
      t'.writes.countP isTotalsUpsert = t.writes.countP isTotalsUpsert := by
  induction cs with
  | nil =>
    intro t t' h
    injection h with h
    subst h
    exact ⟨rfl, rfl⟩
  | cons q cs ih =>
    intro t t' h
    simp only [processControllers] at h
    rcases hs : processController none sid now q t with m | t1 <;> rw [hs] at h
    · cases h
    · obtain ⟨a1, a2⟩ := processController_none_totals sid now q t t1 hs
      obtain ⟨b1, b2⟩ := ih t1 t' h
      exact ⟨by rw [b1, a1], by rw [b2, a2]⟩

lemma storeConnectionStats_none_totals (conn : ActiveConn) (t t' : Tx)
    (h : storeConnectionStats none conn t = Except.ok t') :
    t'.db.pilotTotals = (if conn.connectionType = ConnectionType.pilot then
        upsertPilotTotals t.db.pilotTotals conn.cid (flightTimeOf conn) conn.rating conn.lastSeen
      else t.db.pilotTotals) ∧
    t'.writes.countP isTotalsUpsert = t.writes.countP isTotalsUpsert +
      (if conn.connectionType = ConnectionType.pilot then 1 else 0) := by
  unfold storeConnectionStats at h
  simp only [txWrite_none_eq] at h
  split at h <;> simp only [txWrite_none_eq, Except.ok.injEq] at h <;> subst h <;>
    rename_i hty <;> rw [hty] <;>
    simp [List.countP_append, isTotalsUpsert]

lemma filter_insertA_eq {α : Type} (p : String × α → Bool) (k : String) (v : α)
    (hp : ∀ w : α, p (k, w) = false) :
    ∀ l : List (String × α), (insertA l k v).filter p = l.filter p := by
  intro l
  induction l with
  | nil => simp [insertA, List.filter, hp v]
  | cons kv rest ih =>
    simp only [insertA]
    by_cases hkk : kv.1 = k
    · rw [if_pos hkk, List.filter_cons, List.filter_cons]
      have h1 : p (k, v) = false := hp v
      have h2 : p kv = false := by
        have hkv : kv = (k, kv.2) := by rw [← hkk]
        rw [hkv]
        exact hp kv.2
      simp [h1, h2]
    · rw [if_neg hkk, List.filter_cons, List.filter_cons, ih]

lemma closedPilotCount_insertA (current : List String) (l : Mem) (k : String)
    (v : ActiveConn) (hk : k ∈ current) :
    closedPilotCount (insertA l k v) current = closedPilotCount l current := by
  unfold closedPilotCount
  rw [filter_insertA_eq _ k v (fun w => by simp [hk]) l]

lemma processPilot_none_closed (sid now : Nat) (p : Pilot) (t t' : Tx)
    (h : processPilot none sid now p t = Except.ok t') (current : List String)
    (hk : mkKey p.cid p.callsign ∈ current) :
    closedPilotCount t'.mem current = closedPilotCount t.mem current := by
  unfold processPilot at h
  simp only [txWrite_none_eq] at h
  rcases hfp : p.flightPlan with _ | fp <;> rw [hfp] at h <;>
    simp only [txWrite_none_eq] at h <;>
    split at h <;>
    first
      | (simp only [Except.ok.injEq] at h; subst h;
          exact closedPilotCount_insertA current _ _ _ hk)
      | (split at h <;> simp only [Except.ok.injEq] at h <;> subst h <;>
          exact closedPilotCount_insertA current _ _ _ hk)

lemma processPilots_none_closed (sid now : Nat) (ps : List Pilot) (current : List String) :
    ∀ t t' : Tx, processPilots none sid now ps t = Except.ok t' →
      (∀ p ∈ ps, mkKey p.cid p.callsign ∈ current) →
      closedPilotCount t'.mem current = closedPilotCount t.mem current := by
  induction ps with
  | nil =>
    intro t t' h _
    injection h with h
    subst h
    rfl
  | cons q ps ih =>
    intro t t' h hk
    simp only [processPilots] at h
    rcases hs : processPilot none sid now q t with m | t1 <;> rw [hs] at h
    · cases h
    · rw [ih t1 t' h (fun p hp => hk p (List.mem_cons_of_mem _ hp)),
        processPilot_none_closed sid now q t t1 hs current (hk q (List.mem_cons_self q ps))]

lemma processController_none_closed (sid now : Nat) (ctl : Controller) (t t' : Tx)
    (h : processController none sid now ctl t = Except.ok t') (current : List String)
    (hk : mkKey ctl.cid ctl.callsign ∈ current) :
    closedPilotCount t'.mem current = closedPilotCount t.mem current := by
  unfold processController at h
  simp only [txWrite_none_eq] at h
  split at h <;>
    first
      | (simp only [Except.ok.injEq] at h; subst h;
          exact closedPilotCount_insertA current _ _ _ hk)
      | (split at h <;> simp only [Except.ok.injEq] at h <;> subst h <;>
          exact closedPilotCount_insertA current _ _ _ hk)

lemma processControllers_none_closed (sid now : Nat) (cs : List Controller) (current : List String) :
    ∀ t t' : Tx, processControllers none sid now cs t = Except.ok t' →
      (∀ ctl ∈ cs, mkKey ctl.cid ctl.callsign ∈ current) →
      closedPilotCount t'.mem current = closedPilotCount t.mem current := by
  induction cs with
  | nil =>
    intro t t' h _
    injection h with h
    subst h
    rfl
  | cons q cs ih =>
    intro t t' h hk
    simp only [processControllers] at h
    rcases hs : processController none sid now q t with m | t1 <;> rw [hs] at h
    · cases h
    · rw [ih t1 t' h (fun c hc => hk c (List.mem_cons_of_mem _ hc)),
        processController_none_closed sid now q t t1 hs current (hk q (List.mem_cons_self q cs))]

lemma mem_of_mem_insertA_ne {α : Type} (k k' : String) (v v' : α) (h : k' ≠ k) :
    ∀ l : List (String × α), (k', v') ∈ insertA l k v → (k', v') ∈ l := by
  intro l
  induction l with
  | nil =>
    intro hm
    simp [insertA] at hm
    exact absurd hm.1 h
  | cons kv rest ih =>
    intro hm
    simp only [insertA] at hm
    by_cases hkk : kv.1 = k
    · rw [if_pos hkk] at hm
      rcases List.mem_cons.mp hm with he | hm
      · exact absurd (congrArg Prod.fst he) h
      · exact List.mem_cons_of_mem _ hm
    · rw [if_neg hkk] at hm
      rcases List.mem_cons.mp hm with he | hm
      · exact he ▸ List.mem_cons_self _ _
      · exact List.mem_cons_of_mem _ (ih hm)

lemma processPilot_none_mem_rev (sid now : Nat) (p : Pilot) (t t' : Tx)
    (h : processPilot none sid now p t = Except.ok t') (key : String) (conn : ActiveConn)
    (hmem : (key, conn) ∈ t'.mem) (hne : key ≠ mkKey p.cid p.callsign) :
    (key, conn) ∈ t.mem := by
  unfold processPilot at h
  simp only [txWrite_none_eq] at h
  rcases hfp : p.flightPlan with _ | fp <;> rw [hfp] at h <;>
    simp only [txWrite_none_eq] at h <;>
    split at h <;>
    first
      | (simp only [Except.ok.injEq] at h; subst h;
          exact mem_of_mem_insertA_ne _ _ _ _ hne _ hmem)
      | (split at h <;> simp only [Except.ok.injEq] at h <;> subst h <;>
          exact mem_of_mem_insertA_ne _ _ _ _ hne _ hmem)

lemma processPilots_none_mem_rev (sid now : Nat) (ps : List Pilot) :
    ∀ t t' : Tx, processPilots none sid now ps t = Except.ok t' →
      ∀ key conn, (key, conn) ∈ t'.mem →
        (∀ p ∈ ps, key ≠ mkKey p.cid p.callsign) → (key, conn) ∈ t.mem := by
  induction ps with
  | nil =>
    intro t t' h key conn hmem _
    injection h with h
    subst h
    exact hmem
  | cons q ps ih =>
    intro t t' h key conn hmem hk
    simp only [processPilots] at h
    rcases hs : processPilot none sid now q t with m | t1 <;> rw [hs] at h
    · cases h
    · exact processPilot_none_mem_rev sid now q t t1 hs key conn
        (ih t1 t' h key conn hmem (fun p hp => hk p (List.mem_cons_of_mem _ hp)))
        (hk q (List.mem_cons_self q ps))

lemma processController_none_mem_rev (sid now : Nat) (ctl : Controller) (t t' : Tx)
    (h : processController none sid now ctl t = Except.ok t') (key : String) (conn : ActiveConn)
    (hmem : (key, conn) ∈ t'.mem) (hne : key ≠ mkKey ctl.cid ctl.callsign) :
    (key, conn) ∈ t.mem := by
  unfold processController at h
  simp only [txWrite_none_eq] at h
  split at h <;>
    first
      | (simp only [Except.ok.injEq] at h; subst h;
          exact mem_of_mem_insertA_ne _ _ _ _ hne _ hmem)
      | (split at h <;> simp only [Except.ok.injEq] at h <;> subst h <;>
          exact mem_of_mem_insertA_ne _ _ _ _ hne _ hmem)

lemma processControllers_none_mem_rev (sid now : Nat) (cs : List Controller) :
    ∀ t t' : Tx, processControllers none sid now cs t = Except.ok t' →
      ∀ key conn, (key, conn) ∈ t'.mem →
        (∀ ctl ∈ cs, key ≠ mkKey ctl.cid ctl.callsign) → (key, conn) ∈ t.mem := by
  induction cs with
  | nil =>
    intro t t' h key conn hmem _
    injection h with h
    subst h
    exact hmem
  | cons q cs ih =>
    intro t t' h key conn hmem hk
    simp only [processControllers] at h
    rcases hs : processController none sid now q t with m | t1 <;> rw [hs] at h
    · cases h
    · exact processController_none_mem_rev sid now q t t1 hs key conn
        (ih t1 t' h key conn hmem (fun c hc => hk c (List.mem_cons_of_mem _ hc)))
        (hk q (List.mem_cons_self q cs))

lemma processDisconnects_none_totals (current : List String) :
    ∀ (entries : Mem) (t t' : Tx),
      processDisconnects none entries current t = Except.ok t' →
      (∀ kv ∈ entries, kv.1 ∉ current → kv.2.startTime ≤ kv.2.lastSeen) →
      totalsTableLE t.db.pilotTotals t'.db.pilotTotals ∧
      t'.writes.countP isTotalsUpsert =
        t.writes.countP isTotalsUpsert + closedPilotCount entries current := by
  intro entries
  induction entries with
  | nil =>
    intro t t' h _
    injection h with h
    subst h
    exact ⟨totalsTableLE_refl _, by simp [closedPilotCount]⟩
  | cons kv rest ih =>
    intro t t' h hwf
    simp only [processDisconnects] at h
    by_cases hk : kv.1 ∈ current
    · rw [if_pos hk] at h
      obtain ⟨hle, hcount⟩ := ih t t' h (fun kv2 h2 => hwf kv2 (List.mem_cons_of_mem _ h2))
      refine ⟨hle, ?_⟩
      rw [hcount]
      have hnc : ¬ (kv.1 ∉ current ∧ kv.2.connectionType = ConnectionType.pilot) :=
        fun hc => hc.1 hk
      simp [closedPilotCount, List.filter_cons, hnc]
    · rw [if_neg hk] at h
      rcases hs : storeConnectionStats none kv.2 t with m | t1 <;> rw [hs] at h
      · cases h
      · obtain ⟨ht1, hc1⟩ := storeConnectionStats_none_totals kv.2 t t1 hs
        obtain ⟨hle2, hc2⟩ := ih _ t' h (fun kv2 h2 => hwf kv2 (List.mem_cons_of_mem _ h2))
        have hle1 : totalsTableLE t.db.pilotTotals t1.db.pilotTotals := by
          rw [ht1]
          by_cases hty : kv.2.connectionType = ConnectionType.pilot
          · rw [if_pos hty]
            exact upsert_totalsTableLE _ _ _ _ _
              (flightTimeOf_nonneg kv.2 (hwf kv (List.mem_cons_self kv rest) hk))
          · rw [if_neg hty]
            exact totalsTableLE_refl _
        refine ⟨totalsTableLE_trans _ _ _ hle1 hle2, ?_⟩
        rw [hc2, hc1]
        by_cases hty : kv.2.connectionType = ConnectionType.pilot
        · have hyes : kv.1 ∉ current ∧ kv.2.connectionType = ConnectionType.pilot := ⟨hk, hty⟩
          simp only [closedPilotCount, List.filter_cons]
          simp [hyes, hty, closedPilotCount]
          omega
        · have hno : ¬ (kv.1 ∉ current ∧ kv.2.connectionType = ConnectionType.pilot) :=
            fun hc => hty hc.2
          simp only [closedPilotCount, List.filter_cons]
          simp [hno, hty, closedPilotCount]

/-- C4: over one successful reconciliation cycle every counter of every
existing cumulative pilot-totals row is monotonically non-decreasing (the row
is never deleted or shrunk), the cycle issues exactly one cumulative upsert
per finalized pilot session (one per tracked pilot entry whose key the
snapshot no longer lists), and each upsert is a relative increment: the
stored row is mapped to itself plus the session's deltas, never recomputed
from scratch. Hypothesis: tracked sessions about to be closed are well-formed
(start not after last-seen), which holds for every session the collector
itself creates from a snapshot with ordered timestamps. -/
theorem cumulativeTotalsMonotone (db : DBState) (mem : Mem) (data : VatsimData) (now : Nat)
    (hwf : ∀ kv ∈ mem, kv.1 ∉ currentKeys data → kv.2.startTime ≤ kv.2.lastSeen) :
    ∃ t, storeData none db mem data now = Except.ok t ∧
      totalsTableLE db.pilotTotals t.db.pilotTotals ∧
      t.writes.countP isTotalsUpsert = closedPilotCount mem (currentKeys data) ∧
      (∀ l cid ft rating ls t0, lookupA l cid = some t0 →
        lookupA (upsertPilotTotals l cid ft rating ls) cid = some
          { totalHours := t0.totalHours + ft
            totalFlights := t0.totalFlights + 1
            studentHours := t0.studentHours + (if rating = 1 then ft else 0)
            pplHours := t0.pplHours + (if rating = 2 then ft else 0)
            instrumentHours := t0.instrumentHours + (if rating = 3 then ft else 0)
            cplHours := t0.cplHours + (if rating = 4 then ft else 0)
            atplHours := t0.atplHours + (if rating = 5 then ft else 0)
            lastUpdated := ls }) := by
  obtain ⟨t, ht⟩ := storeData_none_ok db mem data now
  refine ⟨t, ht, ?_⟩
  unfold storeData at ht
  rcases h1 : processFacilities none data.facilities
      { db := db, mem := mem, writes := [], wc := 0 } with m | t1 <;> rw [h1] at ht
  · cases ht
  simp only [Except.bind] at ht
  rcases h2 : processRatingDefs none data.ratings t1 with m | t2 <;> rw [h2] at ht
  · cases ht
  simp only [Except.bind] at ht
  rcases h3 : insertSnapshot none data.general t2 with m | pr <;> rw [h3] at ht
  · cases ht
  simp only [Except.bind] at ht
  rcases h4 : processPilots none pr.1 now data.pilots pr.2 with m | t4 <;> rw [h4] at ht
  · cases ht
  simp only [Except.bind] at ht
  rcases h5 : processControllers none pr.1 now data.controllers t4 with m | t5 <;> rw [h5] at ht
  · cases ht
  simp only [Except.bind] at ht
  obtain ⟨e1, c1⟩ := processFacilities_none_totals data.facilities _ t1 h1
  obtain ⟨e2, c2⟩ := processRatingDefs_none_totals data.ratings t1 t2 h2
  obtain ⟨e3, c3⟩ := insertSnapshot_none_totals data.general t2 pr h3
  obtain ⟨e4, c4⟩ := processPilots_none_totals pr.1 now data.pilots pr.2 t4 h4
  obtain ⟨e5, c5⟩ := processControllers_none_totals pr.1 now data.controllers t4 t5 h5
  have hm3 : pr.2.mem = mem := by
    rw [insertSnapshot_none_mem_eq data.general t2 pr h3,
      processRatingDefs_none_mem_eq data.ratings t1 t2 h2,
      processFacilities_none_mem_eq data.facilities _ t1 h1]
  have hkeyp : ∀ p ∈ data.pilots, mkKey p.cid p.callsign ∈ currentKeys data := by
    intro p hp
    unfold currentKeys
    exact List.mem_append_left _ (List.mem_map_of_mem _ hp)
  have hkeyc : ∀ ctl ∈ data.controllers, mkKey ctl.cid ctl.callsign ∈ currentKeys data := by
    intro ctl hc
    unfold currentKeys
    exact List.mem_append_right _ (List.mem_map_of_mem _ hc)
  have hwf5 : ∀ kv ∈ t5.mem, kv.1 ∉ currentKeys data → kv.2.startTime ≤ kv.2.lastSeen := by
    intro kv hkv habs
    have hkv4 : kv ∈ t4.mem :=
      processControllers_none_mem_rev pr.1 now data.controllers t4 t5 h5 kv.1 kv.2
        (by simpa using hkv) (fun ctl hc he => habs (he ▸ hkeyc ctl hc))
    have hkv2 : kv ∈ pr.2.mem :=
      processPilots_none_mem_rev pr.1 now data.pilots pr.2 t4 h4 kv.1 kv.2
        (by simpa using hkv4) (fun p hp he => habs (he ▸ hkeyp p hp))
    exact hwf kv (by rw [← hm3]; exact hkv2) habs
  obtain ⟨hle, hcount⟩ :=
    processDisconnects_none_totals (currentKeys data) t5.mem t5 t ht hwf5
  refine ⟨?_, ?_, ?_⟩
  · rw [e5, e4, e3, e2, e1] at hle
    exact hle
  · rw [hcount, c5, c4, c3, c2, c1]
    have hclosed5 : closedPilotCount t5.mem (currentKeys data) =
        closedPilotCount mem (currentKeys data) := by
      rw [processControllers_none_closed pr.1 now data.controllers (currentKeys data)
          t4 t5 h5 hkeyc,
        processPilots_none_closed pr.1 now data.pilots (currentKeys data) pr.2 t4 h4 hkeyp,
        hm3]
    rw [hclosed5]
    simp
  · intro l cid ft rating ls t0 h0
    have hself := lookupA_upsertPilotTotals_self l cid ft rating ls
    rw [h0] at hself
    simpa using hself

/-- C4 witness: closing one stale tier-4 pilot session against an empty
totals table performs exactly one cumulative upsert and only grows rows. -/
theorem cumulativeTotalsMonotone_witness :
    (∀ kv ∈ [("100-ABC123", c8Conn)], kv.1 ∉ currentKeys (mkSnap "tok9" [] []) →
        kv.2.startTime ≤ kv.2.lastSeen) ∧
    (∃ t, storeData none DBState.empty [("100-ABC123", c8Conn)]
        (mkSnap "tok9" [] []) 2000 = Except.ok t ∧
      totalsTableLE DBState.empty.pilotTotals t.db.pilotTotals ∧
      t.writes.countP isTotalsUpsert = 1 ∧
      (∀ l cid ft rating ls t0, lookupA l cid = some t0 →
        lookupA (upsertPilotTotals l cid ft rating ls) cid = some
          { totalHours := t0.totalHours + ft
            totalFlights := t0.totalFlights + 1
            studentHours := t0.studentHours + (if rating = 1 then ft else 0)
            pplHours := t0.pplHours + (if rating = 2 then ft else 0)
            instrumentHours := t0.instrumentHours + (if rating = 3 then ft else 0)
            cplHours := t0.cplHours + (if rating = 4 then ft else 0)
            atplHours := t0.atplHours + (if rating = 5 then ft else 0)
            lastUpdated := ls })) :=
  ⟨by decide,
   cumulativeTotalsMonotone DBState.empty [("100-ABC123", c8Conn)]
     (mkSnap "tok9" [] []) 2000 (by decide)⟩

/-- C1 counterexample: a key present in cycle N, absent in cycle N+1, present
again in cycle N+2 well inside the 5-minute grace window ends with TWO durable
connection rows for the key (not exactly one), and the one-cycle absence DID
produce a cumulative-totals finalization (the totals row exists with one
counted flight after the trace). -/
theorem reopenLeavesTwoRowsAndFinalizes :
    (c1Run3.db.connections.filter
      (fun r => decide (r.vatsimId = "100" ∧ r.callsign = "ABC123"))).length = 2 ∧
    lookupA c1Run3.db.pilotTotals "100" = some
      { totalHours := 0, totalFlights := 1, studentHours := 0, pplHours := 0
        instrumentHours := 0, cplHours := 0, atplHours := 0, lastUpdated := 1010 } := by
  decide

/-- C1 (amended): for a key present in cycle N (opened fresh against an empty
store), absent in cycle N+1, and present again in cycle N+2 with the stored
end boundaries still inside the 5-minute grace window: the one-cycle absence
DOES close and finalize the session (cycle N+1 inserts a second, finalized
connection row and applies one cumulative-totals finalization), so after
cycle N+2 the durable store holds exactly TWO rows for the key — the original
row, whose end boundary the reopen advances to the new source timestamp, and
the close row; cycle N+2 itself performs only an end-time update (no third
row), and the restored in-memory session's start time equals the cycle-N
start (the source-reported logon time). -/
theorem graceWindowReopenBehavior (p : Pilot) (g1 g2 g3 : General)
    (s now1 now2 now3 t3v : Nat)
    (hfp : p.flightPlan = none)
    (hg1 : g1.update ≠ "") (hg2 : g2.update ≠ g1.update) (hg3 : g3.update ≠ g2.update)
    (hgrace : now3 - 300 < p.lastUpdated) :
    (reopenTrace p g1 g2 g3 s now1 now2 now3 t3v).db.connections =
      [{ id := 0, vatsimId := toString p.cid, type := ConnectionType.pilot
         rating := p.pilotRating, callsign := p.callsign, startTime := p.logonTime
         endTime := t3v, server := p.server },
       { id := 1, vatsimId := toString p.cid, type := ConnectionType.pilot
         rating := p.pilotRating, callsign := p.callsign, startTime := p.logonTime
         endTime := p.lastUpdated, server := p.server }] ∧
    (∃ tot, lookupA (reopenTrace p g1 g2 g3 s now1 now2 now3 t3v).db.pilotTotals
        (toString p.cid) = some tot ∧ tot.totalFlights = 1) ∧
    (reopenTrace p g1 g2 g3 s now1 now2 now3 t3v).writes =
      [Write.snapshotInsert 2 g3, Write.pilotInsert 1 2 { p with lastUpdated := t3v },
       Write.connUpdate 0 t3v p.pilotRating] ∧
    (∃ conn, lookupA (reopenTrace p g1 g2 g3 s now1 now2 now3 t3v).coll.activeConnections
        (mkKey p.cid p.callsign) = some conn ∧ conn.startTime = p.logonTime) := by
  unfold reopenTrace
  simp [FetchAndStore, storeData, processFacilities, processRatingDefs, insertSnapshot,
    processPilots, processPilot, processControllers, processDisconnects, storeConnectionStats,
    currentKeys, txWrite, findOpenConn, updateConnRow, upsertPilotTotals, newPilotConn,
    insertA, lookupA, removeA, mkKey, storeNetworkStats, storeAirportStats, countControllers,
    NewCollector, DBState.empty, Except.bind, hfp, hgrace, hg1, hg2, hg3]

/-- C1 amended-claim witness: the concrete trace — rows 0 and 1 remain, row 0
reopened with its end advanced to 1040, one finalization, cycle N+2 writes
only an update, and the restored session starts at the cycle-N start 1000. -/
theorem graceWindowReopenBehavior_witness :
    (1050 - 300 < samplePilot.lastUpdated) ∧
    (c1Run3.db.connections =
      [{ id := 0, vatsimId := "100", type := ConnectionType.pilot
         rating := 4, callsign := "ABC123", startTime := 1000
         endTime := 1040, server := "S1" },
       { id := 1, vatsimId := "100", type := ConnectionType.pilot
         rating := 4, callsign := "ABC123", startTime := 1000
         endTime := 1010, server := "S1" }] ∧
    (∃ tot, lookupA c1Run3.db.pilotTotals "100" = some tot ∧ tot.totalFlights = 1) ∧
    c1Run3.writes =
      [Write.snapshotInsert 2 (mkGeneral "tokC"),
       Write.pilotInsert 1 2 { samplePilot with lastUpdated := 1040 },
       Write.connUpdate 0 1040 4] ∧
    (∃ conn, lookupA c1Run3.coll.activeConnections "100-ABC123" = some conn ∧
      conn.startTime = 1000)) :=
  ⟨by decide,
   graceWindowReopenBehavior samplePilot (mkGeneral "tokA") (mkGeneral "tokB")
     (mkGeneral "tokC") 0 1020 1035 1050 1040 rfl (by decide) (by decide) (by decide)
     (by decide)⟩

end VatsimStats

